import Mathlib

/-!
# Xen Orchestra CSI driver: attach/detach and stage/mount decision logic

A shallow embedding of `pkg/xenorchestra-csi` (`controllerserver.go`,
`nodeserver.go`, `xoclient.go`, `mounter.go`, `volume_capabilities.go`).

The RPC handlers talk to two collaborators, the Xen Orchestra client and the
OS mount utility.  Both are modelled as records of state-passing functions over
an arbitrary state type `σ`; every invocation of a collaborator is appended to
a trace, so that statements such as "issues no connect" are statements about
the trace.  Logging (`klog`) has no effect on control flow and is left out.
Go `error` values are `Option String` (`none` is `nil`); Go `(T, error)`
results are `Except String T`; Go `map[string]string` is an association list
whose lookup of a missing key yields the empty string.
-/

namespace XenOrchestraCSI

/-! ## Data model -/

/-- The gRPC status codes (`google.golang.org/grpc/codes`) the driver returns. -/
inductive Code where
  | InvalidArgument
  | FailedPrecondition
  | Internal
  | Unimplemented
  | Unavailable
deriving DecidableEq, Repr

/-- A gRPC status: `status.Errorf(code, msg)`. -/
structure Status where
  code : Code
  msg : String
deriving DecidableEq, Repr

/-- The `uuid.UUID` of `github.com/gofrs/uuid`: sixteen bytes. -/
structure UUID where
  bytes : List Nat
deriving DecidableEq, Repr

/-- The fields of `xoV1.VBD` the driver reads: the hypervisor-side attachment of
a VDI to a VM. `Attached` is the connected flag. -/
structure VBD where
  Id : String
  Attached : Bool
  Device : String
  VDI : String
  VmId : String
deriving DecidableEq, Repr

/-- The fields of `xoV1.VDI` the driver reads. -/
structure VDI where
  VDIId : String
  PoolId : String
deriving DecidableEq, Repr

/-- The field of the v2 `VM` payload the driver reads. -/
structure VM where
  PoolID : UUID
deriving DecidableEq, Repr

/-- The `access_type` oneof of `csi.VolumeCapability`. -/
inductive AccessType where
  | Block
  | Mount (FsType : String) (MountFlags : List String)
deriving DecidableEq, Repr

/-- The enum `csi.VolumeCapability_AccessMode_Mode`. -/
inductive AccessMode where
  | UNKNOWN
  | SINGLE_NODE_WRITER
  | SINGLE_NODE_READER_ONLY
  | MULTI_NODE_READER_ONLY
  | MULTI_NODE_SINGLE_WRITER
  | MULTI_NODE_MULTI_WRITER
  | SINGLE_NODE_SINGLE_WRITER
  | SINGLE_NODE_MULTI_WRITER
deriving DecidableEq, Repr

/-- A `csi.VolumeCapability`: the access-type oneof may be unset, and the access
mode message may be absent (`GetMode` on a nil message yields `UNKNOWN`). -/
structure VolumeCapability where
  AccessType : Option AccessType
  AccessMode : Option AccessMode
deriving DecidableEq, Repr

/-- A Go `map[string]string`; a nil map is the empty list. -/
abbrev GoMap := List (String × String)

/-- The Go expression `m[k]`: the zero value (empty string) for a missing key. -/
def GoMap.get (m : GoMap) (k : String) : String :=
  (m.lookup k).getD ""

/-- The Go expression `_, exists := m[k]`. -/
def GoMap.exists (m : GoMap) (k : String) : Bool :=
  (m.lookup k).isSome

/-- The fields of `csi.ControllerPublishVolumeRequest` the driver reads. -/
structure ControllerPublishVolumeRequest where
  VolumeId : String
  NodeId : String
  VolumeCapability : Option VolumeCapability
deriving DecidableEq, Repr

/-- The fields of `csi.ControllerUnpublishVolumeRequest` the driver reads. -/
structure ControllerUnpublishVolumeRequest where
  VolumeId : String
  NodeId : String
deriving DecidableEq, Repr

/-- The fields of `csi.NodeStageVolumeRequest` the driver reads. -/
structure NodeStageVolumeRequest where
  VolumeId : String
  PublishContext : GoMap
  StagingTargetPath : String
  VolumeCapability : Option VolumeCapability
deriving DecidableEq, Repr

/-- The fields of `csi.NodeUnstageVolumeRequest` the driver reads. -/
structure NodeUnstageVolumeRequest where
  VolumeId : String
  StagingTargetPath : String
deriving DecidableEq, Repr

/-- The fields of `csi.NodePublishVolumeRequest` the driver reads. -/
structure NodePublishVolumeRequest where
  VolumeId : String
  PublishContext : GoMap
  StagingTargetPath : String
  TargetPath : String
  VolumeCapability : Option VolumeCapability
  Readonly : Bool
  VolumeContext : GoMap
deriving DecidableEq, Repr

/-- The fields of `csi.NodeUnpublishVolumeRequest` the driver reads. -/
structure NodeUnpublishVolumeRequest where
  VolumeId : String
  TargetPath : String
deriving DecidableEq, Repr

/-! ## Collaborators and the call trace -/

/-- One invocation of a collaborator: the remote hypervisor API
(`GetVDI` .. `AttachDisk`) or the local OS (`MkdirAll` .. `Unmount`). -/
inductive Call where
  | GetVDI (vdiUUID : String)
  | VMGetByID (id : UUID)
  | GetAllVBDs
  | ConnectDisk (vbd : VBD)
  | DisconnectDisk (vbd : VBD)
  | AttachDisk (vdi : String) (vm : String)
  | MkdirAll (path : String)
  | IsMountPoint (target : String)
  | GetDeviceNameFromMount (mountPath : String)
  | Mount (source : String) (target : String) (fstype : String) (options : List String)
  | FormatAndMount (source : String) (target : String) (fstype : String) (options : List String)
  | Unmount (target : String)
deriving DecidableEq, Repr

/-- The connect action on an existing attachment. -/
def Call.isConnect : Call → Bool
  | .ConnectDisk _ => true
  | _ => false

/-- The add-and-attach action (`vm.attachDisk`). -/
def Call.isAttach : Call → Bool
  | .AttachDisk _ _ => true
  | _ => false

/-- The disconnect action. -/
def Call.isDisconnect : Call → Bool
  | .DisconnectDisk _ => true
  | _ => false

/-- The calls that change hypervisor state: connect, disconnect, add-and-attach. -/
def Call.isHypervisorMutation (c : Call) : Bool :=
  c.isConnect || c.isDisconnect || c.isAttach

/-- The bind-mount call of the mount utility. -/
def Call.isMount : Call → Bool
  | .Mount _ _ _ _ => true
  | _ => false

/-- The format-and-mount call of the mount utility. -/
def Call.isFormatAndMount : Call → Bool
  | .FormatAndMount _ _ _ _ => true
  | _ => false

/-- The unmount-and-cleanup call of the mount utility. -/
def Call.isUnmount : Call → Bool
  | .Unmount _ => true
  | _ => false

/-- The state of the outside world together with the collaborator calls made so far. -/
structure World (σ : Type) where
  st : σ
  trace : List Call

/-- A world in which no call has been made yet. -/
def World.init {σ : Type} (s : σ) : World σ := ⟨s, []⟩

/-- What the driver needs from the Xen Orchestra SDK and from `gofrs/uuid`.
`GetAllVBDs` is `GetAllObjectsOfType(xoV1.VBD, ..)`, listed in the order in which
the Go `range` over the returned map visits it. `AttachDisk` is the JSON-RPC call
`vm.attachDisk` with its boolean result. `pollTicks` is the number of ticks of
the one-second ticker that `select` receives before it receives the two-minute
timeout. -/
structure XoBackend (σ : Type) where
  FromStringOrNil : String → UUID
  UUIDString : UUID → String
  GetVDI : String → σ → Except String VDI × σ
  VMGetByID : UUID → σ → Except String VM × σ
  GetAllVBDs : σ → Except String (List VBD) × σ
  ConnectDisk : VBD → σ → Option String × σ
  DisconnectDisk : VBD → σ → Option String × σ
  AttachDisk : String → String → σ → Except String Bool × σ
  pollTicks : Nat

/-- The `Mounter` interface of `mounter.go`, plus `os.MkdirAll`. `IsMountPoint`
is `mountutils.Interface.IsMountPoint`: it answers `true` when the path is a
mount point. -/
structure Mounter (σ : Type) where
  MkdirAll : String → σ → Option String × σ
  IsMountPoint : String → σ → Except String Bool × σ
  GetDeviceNameFromMount : String → σ → Except String (String × Int) × σ
  Mount : String → String → String → List String → σ → Option String × σ
  FormatAndMount : String → String → String → List String → σ → Option String × σ
  Unmount : String → σ → Option String × σ

section Calls
variable {σ : Type}

/-- Run a collaborator function on the world and record the call. -/
def World.call {α : Type} (w : World σ) (c : Call) (f : σ → α × σ) : α × World σ :=
  ((f w.st).1, ⟨(f w.st).2, w.trace ++ [c]⟩)

/-! ## volume_capabilities.go -/

/-- The constant `DefaultFsType`. -/
def DefaultFsType : String := "ext4"

/-- The function `isValidCapability`: nil is rejected, then the type switch on
the access type, then the switch on the access mode. -/
def isValidCapability (c : Option VolumeCapability) : Bool :=
  match c with
  | none => false
  | some cap =>
    match cap.AccessType with
    | some AccessType.Block => false
    | none => false
    | some (AccessType.Mount _ _) =>
      match cap.AccessMode.getD AccessMode.UNKNOWN with
      | AccessMode.SINGLE_NODE_WRITER => true
      | _ => false

/-- The function `isValidVolumeCapabilities`: false on the empty slice, otherwise
every element must be valid. -/
def isValidVolumeCapabilities (v : List (Option VolumeCapability)) : Bool :=
  if v.length = 0 then false else v.all isValidCapability

/-- The getter `VolumeCapability.GetMount`: the mount payload (filesystem type and
mount flags) when the access type is mount, nil otherwise. -/
def VolumeCapability.GetMount (c : VolumeCapability) : Option (String × List String) :=
  match c.AccessType with
  | some (AccessType.Mount fs flags) => some (fs, flags)
  | _ => none

/-! ## xoclient.go -/

/-- The timeout of the attach-completion poller, `2 * time.Minute`, in seconds. -/
def pollTimeoutSeconds : Nat := 2 * 60

/-- The period of the poller's ticker, `1 * time.Second`, in seconds. -/
def pollIntervalSeconds : Nat := 1

/-- No more ticks than this fit before the timeout. -/
def maxPollTicks : Nat := pollTimeoutSeconds / pollIntervalSeconds

/-- The method `xoClient.GetVBDFromVDIAndVM`: list all VBDs and return the first one
visited whose VDI and VM match; an error when the listing fails or none matches. -/
def GetVBDFromVDIAndVM (c : XoBackend σ) (vdi : VDI) (vmUUID : String) (w : World σ) :
    Except String VBD × World σ :=
  match w.call Call.GetAllVBDs c.GetAllVBDs with
  | (Except.error err, w1) => (Except.error err, w1)
  | (Except.ok allVDBs, w1) =>
    match allVDBs.find? (fun vdb => vdb.VDI == vdi.VDIId && vdb.VmId == vmUUID) with
    | some vdb => (Except.ok vdb, w1)
    | none => (Except.error ("VBD not found for vdi=" ++ vdi.VDIId ++ " and vm=" ++ vmUUID), w1)

/-- The method `xoClient.ConnectVBDToVM`: connect the disk, and on success hand back
the VBD that was passed in. -/
def ConnectVBDToVM (c : XoBackend σ) (vbd : VBD) (w : World σ) : Except String VBD × World σ :=
  match w.call (Call.ConnectDisk vbd) (c.ConnectDisk vbd) with
  | (some err, w1) => (Except.error err, w1)
  | (none, w1) => (Except.ok vbd, w1)

/-- The loop of `xoClient.WaitForVDIToBeFullyAttached`, with `ticks` ticks left
before the timeout is selected: at each tick query the VBD; a query error or a VBD
that is not yet attached with a device name goes round again. -/
def waitLoop (c : XoBackend σ) (vdi : VDI) (vmUUID : String) :
    Nat → World σ → Except String VBD × World σ
  | 0, w =>
    (Except.error ("timed out waiting for VDI " ++ vdi.VDIId ++ " to be attached to VM " ++ vmUUID), w)
  | ticks + 1, w =>
    match GetVBDFromVDIAndVM c vdi vmUUID w with
    | (Except.error _, w1) => waitLoop c vdi vmUUID ticks w1
    | (Except.ok vbd, w1) =>
      if vbd.Attached && vbd.Device != "" then (Except.ok vbd, w1)
      else waitLoop c vdi vmUUID ticks w1

/-- The method `xoClient.WaitForVDIToBeFullyAttached`. -/
def WaitForVDIToBeFullyAttached (c : XoBackend σ) (vdi : VDI) (vmUUID : String) (w : World σ) :
    Except String VBD × World σ :=
  waitLoop c vdi vmUUID (min c.pollTicks maxPollTicks) w

/-- The method `xoClient.AttachVDIToVM`: call `vm.attachDisk`, fail on an error or a
false result, then wait for the attachment to be complete. -/
def AttachVDIToVM (c : XoBackend σ) (vdi : VDI) (vmUUID : String) (w : World σ) :
    Except String VBD × World σ :=
  match w.call (Call.AttachDisk vdi.VDIId vmUUID) (c.AttachDisk vdi.VDIId vmUUID) with
  | (Except.error err, w1) => (Except.error err, w1)
  | (Except.ok result, w1) =>
    if !result then
      (Except.error ("failed to attach VDI " ++ vdi.VDIId ++ " to VM " ++ vmUUID ++ ": unknown error"), w1)
    else
      match WaitForVDIToBeFullyAttached c vdi vmUUID w1 with
      | (Except.error err, w2) => (Except.error err, w2)
      | (Except.ok vbd, w2) => (Except.ok vbd, w2)

/-- The method `xoClient.IsVDIUsedAnywhere`: the listed VBDs whose VDI is the given
one, in listing order. -/
def IsVDIUsedAnywhere (c : XoBackend σ) (vdi : VDI) (w : World σ) :
    Except String (List VBD) × World σ :=
  match w.call Call.GetAllVBDs c.GetAllVBDs with
  | (Except.error err, w1) => (Except.error err, w1)
  | (Except.ok allVDBs, w1) => (Except.ok (allVDBs.filter (fun vdb => vdb.VDI == vdi.VDIId)), w1)

/-- The method `xoClient.GetVDI`. -/
def GetVDI (c : XoBackend σ) (vdiUUID : String) (w : World σ) : Except String VDI × World σ :=
  w.call (Call.GetVDI vdiUUID) (c.GetVDI vdiUUID)

/-- The call `xoClient.VM().GetByID`. -/
def VMGetByID (c : XoBackend σ) (id : UUID) (w : World σ) : Except String VM × World σ :=
  w.call (Call.VMGetByID id) (c.VMGetByID id)

/-- The method `xoClient.DisconnectVBDFromVM`: resolve the VBD of the pair, then
disconnect it. -/
def DisconnectVBDFromVM (c : XoBackend σ) (vdi : VDI) (vmUUID : String) (w : World σ) :
    Option String × World σ :=
  match GetVBDFromVDIAndVM c vdi vmUUID w with
  | (Except.error err, w1) => (some err, w1)
  | (Except.ok vbd, w1) => w1.call (Call.DisconnectDisk vbd) (c.DisconnectDisk vbd)

/-! ## controllerserver.go -/

/-- The function `publishContextFromVBD`. -/
def publishContextFromVBD (vbd : VBD) : GoMap :=
  [("device", vbd.Device), ("vbd", vbd.Id)]

/-- The `for _, vbd := range vbds` loop of `ControllerPublishVolume`, with the
current value of `vbdToAttach` as accumulator. `Except.error vbd` is the early
return taken at a VBD that is attached to another VM; `Except.ok` carries the
final `vbdToAttach`. The loop variable is per iteration (Go 1.22 and later), so
`vbdToAttach = &vbd` keeps the element at which it was taken. -/
def scanVBDs (vmUUID : String) : List VBD → Option VBD → Except VBD (Option VBD)
  | [], vbdToAttach => Except.ok vbdToAttach
  | vbd :: rest, vbdToAttach =>
    if vbd.Attached && vbd.VmId != vmUUID then Except.error vbd
    else if vbd.VmId == vmUUID then scanVBDs vmUUID rest (some vbd)
    else scanVBDs vmUUID rest vbdToAttach

/-- The tail of `ControllerPublishVolume` from `AttachVDIToVM` on. -/
def publishByAttach (c : XoBackend σ) (vdi : VDI) (vmUUID : String) (w : World σ) :
    Except Status GoMap × World σ :=
  match AttachVDIToVM c vdi vmUUID w with
  | (Except.error err, w1) =>
    (Except.error ⟨Code.Internal, "Failed to attach VDI to VM: " ++ err⟩, w1)
  | (Except.ok vbd, w1) => (Except.ok (publishContextFromVBD vbd), w1)

/-- The part of `ControllerPublishVolume` that follows the enumeration of the
VBDs of the volume: the `if len(vbds) > 0` block and the attach after it. -/
def publishFromVBDs (c : XoBackend σ) (vdi : VDI) (vmUUID : String) (vbds : List VBD)
    (w : World σ) : Except Status GoMap × World σ :=
  if vbds.length > 0 then
    match scanVBDs vmUUID vbds none with
    | Except.error vbd =>
      (Except.error ⟨Code.FailedPrecondition,
        "VDI " ++ vdi.VDIId ++ " is already attached to another VM " ++ vbd.VmId⟩, w)
    | Except.ok (some vbdToAttach) =>
      if !vbdToAttach.Attached then
        match ConnectVBDToVM c vbdToAttach w with
        | (Except.error err, w1) =>
          (Except.error ⟨Code.Internal, "Failed to connect VBD to VM: " ++ err⟩, w1)
        | (Except.ok vbdConnected, w1) =>
          (Except.ok (publishContextFromVBD vbdConnected), w1)
      else
        (Except.ok (publishContextFromVBD vbdToAttach), w)
    | Except.ok none => publishByAttach c vdi vmUUID w
  else publishByAttach c vdi vmUUID w

/-- The handler `ControllerPublishVolume`. The result is the publish context of the
response, or the gRPC status. -/
def ControllerPublishVolume (c : XoBackend σ) (req : ControllerPublishVolumeRequest)
    (w : World σ) : Except Status GoMap × World σ :=
  let vmUUID := req.NodeId
  if vmUUID == "" then
    (Except.error ⟨Code.InvalidArgument, "node ID is required"⟩, w)
  else if !isValidCapability req.VolumeCapability then
    (Except.error ⟨Code.InvalidArgument, "invalid volume capability"⟩, w)
  else
    let volumeId := req.VolumeId
    if volumeId == "" then
      (Except.error ⟨Code.InvalidArgument, "volume ID is required"⟩, w)
    else
      match GetVDI c volumeId w with
      | (Except.error err, w1) =>
        (Except.error ⟨Code.Internal, "failed to get VDI: " ++ err⟩, w1)
      | (Except.ok vdi, w1) =>
        match VMGetByID c (c.FromStringOrNil vmUUID) w1 with
        | (Except.error err, w2) =>
          (Except.error ⟨Code.Internal, "failed to get VM by ID " ++ vmUUID ++ ": " ++ err⟩, w2)
        | (Except.ok nodeVM, w2) =>
          if nodeVM.PoolID != c.FromStringOrNil vdi.PoolId then
            (Except.error ⟨Code.FailedPrecondition,
              "cannot attach VDI from pool " ++ vdi.PoolId ++ " to VM in pool "
                ++ c.UUIDString nodeVM.PoolID⟩, w2)
          else
            match IsVDIUsedAnywhere c vdi w2 with
            | (Except.error err, w3) =>
              (Except.error ⟨Code.Internal,
                "failed to check if VDI is already attached: " ++ err⟩, w3)
            | (Except.ok vbds, w3) => publishFromVBDs c vdi vmUUID vbds w3

/-- The handler `ControllerUnpublishVolume`. -/
def ControllerUnpublishVolume (c : XoBackend σ) (req : ControllerUnpublishVolumeRequest)
    (w : World σ) : Except Status Unit × World σ :=
  let vmUUID := req.NodeId
  if vmUUID == "" then
    (Except.error ⟨Code.InvalidArgument, "node ID is required"⟩, w)
  else
    let volumeId := req.VolumeId
    if volumeId == "" then
      (Except.error ⟨Code.InvalidArgument, "volume ID is required"⟩, w)
    else
      match DisconnectVBDFromVM c ⟨volumeId, ""⟩ vmUUID w with
      | (some err, w1) =>
        (Except.error ⟨Code.Internal, "Failed to detach VDI from VM: " ++ err⟩, w1)
      | (none, w1) => (Except.ok (), w1)

/-! ## nodeserver.go -/

/-- The local variable `deviceId` of `NodePublishVolume`: the publish-context entry
under the key `deviceID` (the empty string for a nil map or a missing key). It is
only logged. -/
def nodePublishDeviceId (req : NodePublishVolumeRequest) : String :=
  req.PublishContext.get "deviceID"

/-- The handler `NodePublishVolume`. The Boolean that `IsMountPoint` returns is
bound to the variable the source names `notMnt`. -/
def NodePublishVolume (m : Mounter σ) (req : NodePublishVolumeRequest) (w : World σ) :
    Except Status Unit × World σ :=
  match req.VolumeCapability with
  | none => (Except.error ⟨Code.InvalidArgument, "volume capability missing in request"⟩, w)
  | some volCap =>
    if !isValidVolumeCapabilities [some volCap] then
      (Except.error ⟨Code.InvalidArgument, "invalid volume capability"⟩, w)
    else if req.VolumeId.length = 0 then
      (Except.error ⟨Code.InvalidArgument, "volume ID missing in request"⟩, w)
    else if req.TargetPath.length = 0 then
      (Except.error ⟨Code.InvalidArgument, "target path missing in request"⟩, w)
    else
      let attrib := req.VolumeContext
      let sourcePath :=
        if req.StagingTargetPath == "" then
          (if attrib.exists "diskMount" then attrib.get "diskMount" else req.StagingTargetPath)
        else req.StagingTargetPath
      if sourcePath == "" then
        (Except.error ⟨Code.InvalidArgument,
          "source path is required in volume context or staging target path"⟩, w)
      else
        let targetPath := req.TargetPath
        if targetPath == "" then
          (Except.error ⟨Code.InvalidArgument, "target path is required"⟩, w)
        else
          match volCap.GetMount with
          | none =>
            (Except.error ⟨Code.InvalidArgument, "only mount volume capability is supported"⟩, w)
          | some mount =>
            match w.call (Call.MkdirAll targetPath) (m.MkdirAll targetPath) with
            | (some err, w1) =>
              (Except.error ⟨Code.Internal, "failed to create target path: " ++ err⟩, w1)
            | (none, w1) =>
              match w1.call (Call.IsMountPoint targetPath) (m.IsMountPoint targetPath) with
              | (Except.error err, w2) =>
                (Except.error ⟨Code.Internal, "check target path: " ++ err⟩, w2)
              | (Except.ok notMnt, w2) =>
                if !notMnt then (Except.ok (), w2)
                else
                  let fsType := if mount.1 == "" then DefaultFsType else mount.1
                  let _deviceId := nodePublishDeviceId req
                  let options := (if req.Readonly then ["ro"] else []) ++ ["bind"]
                  match w2.call (Call.Mount sourcePath targetPath fsType options)
                      (m.Mount sourcePath targetPath fsType options) with
                  | (some err, w3) =>
                    (Except.error ⟨Code.Internal,
                      "failed to mount device: " ++ sourcePath ++ " at " ++ targetPath
                        ++ ": " ++ err⟩, w3)
                  | (none, w3) => (Except.ok (), w3)

/-- The handler `NodeUnpublishVolume`. -/
def NodeUnpublishVolume (m : Mounter σ) (req : NodeUnpublishVolumeRequest) (w : World σ) :
    Except Status Unit × World σ :=
  if req.VolumeId.length = 0 then
    (Except.error ⟨Code.InvalidArgument, "Volume ID missing in request"⟩, w)
  else if req.TargetPath.length = 0 then
    (Except.error ⟨Code.InvalidArgument, "Target path missing in request"⟩, w)
  else
    let targetPath := req.TargetPath
    match w.call (Call.Unmount targetPath) (m.Unmount targetPath) with
    | (some err, w1) =>
      (Except.error ⟨Code.Internal, "failed to unmount target path: " ++ err⟩, w1)
    | (none, w1) => (Except.ok (), w1)

/-- The handler `NodeStageVolume`. -/
def NodeStageVolume (m : Mounter σ) (req : NodeStageVolumeRequest) (w : World σ) :
    Except Status Unit × World σ :=
  if req.VolumeId.length = 0 then
    (Except.error ⟨Code.InvalidArgument, "Volume ID missing in request"⟩, w)
  else
    let stagingTarget := req.StagingTargetPath
    if stagingTarget.length = 0 then
      (Except.error ⟨Code.InvalidArgument, "Staging target path missing in request"⟩, w)
    else
      match req.VolumeCapability with
      | none => (Except.error ⟨Code.InvalidArgument, "volume capability missing in request"⟩, w)
      | some volCap =>
        match volCap.GetMount with
        | none =>
          (Except.error ⟨Code.InvalidArgument, "only mount volume capability is supported"⟩, w)
        | some mount =>
          let fsType := if mount.1 == "" then DefaultFsType else mount.1
          let device := req.PublishContext.get "device"
          if device == "" then
            (Except.error ⟨Code.InvalidArgument, "device is not set"⟩, w)
          else
            let devicePath := "/dev/" ++ device
            match w.call (Call.GetDeviceNameFromMount stagingTarget)
                (m.GetDeviceNameFromMount stagingTarget) with
            | (Except.error err, w1) =>
              (Except.error ⟨Code.Internal,
                "failed to check if device is already mounted: " ++ err⟩, w1)
            | (Except.ok (currentDevice, _), w1) =>
              if currentDevice == device then (Except.ok (), w1)
              else
                match w1.call (Call.FormatAndMount devicePath stagingTarget fsType [])
                    (m.FormatAndMount devicePath stagingTarget fsType []) with
                | (some err, w2) =>
                  (Except.error ⟨Code.Internal, "failed to ensure filesystem: " ++ err⟩, w2)
                | (none, w2) => (Except.ok (), w2)

/-- The handler `NodeUnstageVolume`. -/
def NodeUnstageVolume (m : Mounter σ) (req : NodeUnstageVolumeRequest) (w : World σ) :
    Except Status Unit × World σ :=
  if req.VolumeId.length = 0 then
    (Except.error ⟨Code.InvalidArgument, "Volume ID missing in request"⟩, w)
  else
    let stagingTarget := req.StagingTargetPath
    if stagingTarget.length = 0 then
      (Except.error ⟨Code.InvalidArgument, "Staging target path missing in request"⟩, w)
    else
      match w.call (Call.GetDeviceNameFromMount stagingTarget)
          (m.GetDeviceNameFromMount stagingTarget) with
      | (Except.error err, w1) =>
        (Except.error ⟨Code.Internal,
          "failed to check if device is already mounted: " ++ err⟩, w1)
      | (Except.ok (_, refCount), w1) =>
        if refCount < 1 then (Except.ok (), w1)
        else if refCount > 1 then (Except.ok (), w1)
        else
          match w1.call (Call.Unmount stagingTarget) (m.Unmount stagingTarget) with
          | (some err, w2) =>
            (Except.error ⟨Code.Internal,
              "failed to unstage device at " ++ stagingTarget ++ ": " ++ err⟩, w2)
          | (none, w2) => (Except.ok (), w2)

/-! ## The capability report and the RPCs that are not implemented -/

/-- The enum `csi.ControllerServiceCapability_RPC_Type`. -/
inductive ControllerRPCType where
  | UNKNOWN
  | CREATE_DELETE_VOLUME
  | PUBLISH_UNPUBLISH_VOLUME
  | LIST_VOLUMES
  | GET_CAPACITY
  | CREATE_DELETE_SNAPSHOT
  | LIST_SNAPSHOTS
  | CLONE_VOLUME
  | PUBLISH_READONLY
  | EXPAND_VOLUME
  | LIST_VOLUMES_PUBLISHED_NODES
  | VOLUME_CONDITION
  | GET_VOLUME
  | SINGLE_NODE_MULTI_WRITER
  | MODIFY_VOLUME
  | GET_SNAPSHOT
deriving DecidableEq, Repr

/-- The handler `ControllerGetCapabilities`: the RPC types of the capabilities in
the response (the entries commented out in the source are absent). -/
def ControllerGetCapabilities {ρ : Type} (_req : ρ) : List ControllerRPCType :=
  [ControllerRPCType.PUBLISH_UNPUBLISH_VOLUME, ControllerRPCType.GET_VOLUME]

/-- The handler `ControllerExpandVolume`. -/
def ControllerExpandVolume {ρ : Type} (_req : ρ) (w : World σ) : Except Status Unit × World σ :=
  (Except.error ⟨Code.Unimplemented, "ControllerExpandVolume is not implemented"⟩, w)

/-- The handler `ControllerGetVolume`. -/
def ControllerGetVolume {ρ : Type} (_req : ρ) (w : World σ) : Except Status Unit × World σ :=
  (Except.error ⟨Code.Unimplemented, "ControllerGetVolume is not implemented"⟩, w)

/-- The handler `ControllerModifyVolume`. -/
def ControllerModifyVolume {ρ : Type} (_req : ρ) (w : World σ) : Except Status Unit × World σ :=
  (Except.error ⟨Code.Unimplemented, "ControllerModifyVolume is not implemented"⟩, w)

/-- The handler `CreateSnapshot`. -/
def CreateSnapshot {ρ : Type} (_req : ρ) (w : World σ) : Except Status Unit × World σ :=
  (Except.error ⟨Code.Unimplemented, "CreateSnapshot is not implemented"⟩, w)

/-- The handler `CreateVolume`. -/
def CreateVolume {ρ : Type} (_req : ρ) (w : World σ) : Except Status Unit × World σ :=
  (Except.error ⟨Code.Unimplemented, "CreateVolume is not implemented"⟩, w)

/-- The handler `DeleteSnapshot`. -/
def DeleteSnapshot {ρ : Type} (_req : ρ) (w : World σ) : Except Status Unit × World σ :=
  (Except.error ⟨Code.Unimplemented, "DeleteSnapshot is not implemented"⟩, w)

/-- The handler `DeleteVolume`. -/
def DeleteVolume {ρ : Type} (_req : ρ) (w : World σ) : Except Status Unit × World σ :=
  (Except.error ⟨Code.Unimplemented, "DeleteVolume is not implemented"⟩, w)

/-- The handler `GetCapacity`. -/
def GetCapacity {ρ : Type} (_req : ρ) (w : World σ) : Except Status Unit × World σ :=
  (Except.error ⟨Code.Unimplemented, "GetCapacity is not implemented"⟩, w)

/-- The handler `ListSnapshots`. -/
def ListSnapshots {ρ : Type} (_req : ρ) (w : World σ) : Except Status Unit × World σ :=
  (Except.error ⟨Code.Unimplemented, "ListSnapshots is not implemented"⟩, w)

/-- The handler `ListVolumes`. -/
def ListVolumes {ρ : Type} (_req : ρ) (w : World σ) : Except Status Unit × World σ :=
  (Except.error ⟨Code.Unimplemented, "ListVolumes is not implemented"⟩, w)

/-- The handler `ValidateVolumeCapabilities`. -/
def ValidateVolumeCapabilities {ρ : Type} (_req : ρ) (w : World σ) :
    Except Status Unit × World σ :=
  (Except.error ⟨Code.Unimplemented, "ValidateVolumeCapabilities is not implemented"⟩, w)

/-- The handler `NodeGetVolumeStats`. -/
def NodeGetVolumeStats {ρ : Type} (_req : ρ) (w : World σ) : Except Status Unit × World σ :=
  (Except.error ⟨Code.Unimplemented, "NodeGetVolumeStats is not implemented"⟩, w)

/-- The handler `NodeExpandVolume`. -/
def NodeExpandVolume {ρ : Type} (_req : ρ) (w : World σ) : Except Status Unit × World σ :=
  (Except.error ⟨Code.Unimplemented, "NodeExpandVolume is not implemented"⟩, w)

end Calls

/-! ## Environment models -/

/-- The valid part of a `ControllerPublishVolume` run: node id, capability and
volume id pass validation, the volume lookup yields `vdi`, the node lookup succeeds,
the pools match, and the enumeration yields the VBDs `vbds` of the volume, leaving
the hypervisor in state `s3`. -/
def PublishEnumerates {σ : Type} (c : XoBackend σ) (req : ControllerPublishVolumeRequest)
    (s : σ) (vdi : VDI) (vbds : List VBD) (s3 : σ) : Prop :=
  req.NodeId ≠ "" ∧ isValidCapability req.VolumeCapability = true ∧ req.VolumeId ≠ "" ∧
  ∃ (s1 s2 : σ) (nodeVM : VM) (allVDBs : List VBD),
    c.GetVDI req.VolumeId s = (Except.ok vdi, s1) ∧
    c.VMGetByID (c.FromStringOrNil req.NodeId) s1 = (Except.ok nodeVM, s2) ∧
    nodeVM.PoolID = c.FromStringOrNil vdi.PoolId ∧
    c.GetAllVBDs s2 = (Except.ok allVDBs, s3) ∧
    vbds = allVDBs.filter (fun vdb => vdb.VDI == vdi.VDIId)

/-- The three calls a `ControllerPublishVolume` run makes up to and including the
enumeration of the VBDs. -/
def lookupCalls {σ : Type} (c : XoBackend σ) (req : ControllerPublishVolumeRequest) : List Call :=
  [Call.GetVDI req.VolumeId, Call.VMGetByID (c.FromStringOrNil req.NodeId), Call.GetAllVBDs]

/-- A model of the OS mount table: the directories that exist and the mount
entries as (mount point, device) pairs, most recent first. -/
structure MountTable where
  dirs : List String
  mounts : List (String × String)
deriving DecidableEq, Repr

/-- The device and reference count that `mountutils.GetDeviceNameFromMount` reads
off the mount table: the device of the entry at the path, and the number of entries
of that device; the empty name and zero when nothing is mounted there. -/
def MountTable.deviceAndRefs (t : MountTable) (mountPath : String) : String × Int :=
  match t.mounts.find? (fun e => e.1 == mountPath) with
  | none => ("", 0)
  | some e => (e.2, ((t.mounts.filter (fun x => x.2 == e.2)).length : Int))

/-- A mount executor over the mount table in which every operation succeeds:
mounting records the source as the device of the target, and `Unmount` follows the
three cases documented on the `Mounter` interface. -/
def mountTableMounter : Mounter MountTable where
  MkdirAll := fun p t => (none, if p ∈ t.dirs then t else ⟨p :: t.dirs, t.mounts⟩)
  IsMountPoint := fun p t => (Except.ok (t.mounts.any (fun e => e.1 == p)), t)
  GetDeviceNameFromMount := fun p t => (Except.ok (t.deviceAndRefs p), t)
  Mount := fun source target _ _ t => (none, ⟨t.dirs, (target, source) :: t.mounts⟩)
  FormatAndMount := fun source target _ _ t => (none, ⟨t.dirs, (target, source) :: t.mounts⟩)
  Unmount := fun target t =>
    if target ∈ t.dirs then
      (none, ⟨t.dirs.filter (fun d => d != target), t.mounts.filter (fun e => e.1 != target)⟩)
    else (none, t)

/-- The hypervisor state of the attach model: the volumes, the VMs by id, and
the VBD records. -/
structure Hypervisor where
  vdis : List VDI
  vms : List (UUID × VM)
  vbds : List VBD
deriving DecidableEq, Repr

/-- A hypervisor in which every action succeeds. Lookups read the tables; listing
returns the VBD records in order; connect and disconnect set the flag of the VBD
with the given id; and a successful add-and-attach records a connected VBD for the
(volume, VM) pair, with the id and device name that `assign` picks. -/
def hypervisorModel (parse : String → UUID) (assign : Hypervisor → String → String → String × String)
    (ticks : Nat) : XoBackend Hypervisor where
  FromStringOrNil := parse
  UUIDString := fun u => toString u.bytes
  GetVDI := fun id h =>
    (match h.vdis.find? (fun v => v.VDIId == id) with
      | some v => Except.ok v
      | none => Except.error "no such VDI", h)
  VMGetByID := fun id h =>
    (match h.vms.lookup id with
      | some vm => Except.ok vm
      | none => Except.error "no such VM", h)
  GetAllVBDs := fun h => (Except.ok h.vbds, h)
  ConnectDisk := fun vbd h =>
    (none, ⟨h.vdis, h.vms,
      h.vbds.map (fun v => if v.Id == vbd.Id then ⟨v.Id, true, v.Device, v.VDI, v.VmId⟩ else v)⟩)
  DisconnectDisk := fun vbd h =>
    (none, ⟨h.vdis, h.vms,
      h.vbds.map (fun v => if v.Id == vbd.Id then ⟨v.Id, false, v.Device, v.VDI, v.VmId⟩ else v)⟩)
  AttachDisk := fun vdi vm h =>
    (Except.ok true, ⟨h.vdis, h.vms,
      h.vbds ++ [⟨(assign h vdi vm).1, true, (assign h vdi vm).2, vdi, vm⟩]⟩)
  pollTicks := ticks

/-- The outcomes of the queries that the first `n` ticks of the poller would make
from the world `w`, each query running on the state the previous one left. -/
def tickOutcomes {σ : Type} (c : XoBackend σ) (vdi : VDI) (vmUUID : String) :
    Nat → World σ → List (Except String VBD)
  | 0, _ => []
  | n + 1, w =>
    (GetVBDFromVDIAndVM c vdi vmUUID w).1
      :: tickOutcomes c vdi vmUUID n (GetVBDFromVDIAndVM c vdi vmUUID w).2

/-- The poller contract, condition (a): an outcome ends the wait when it is a
fetched attachment with connected = true and a non-empty device name. A query
failure is "not yet ready". -/
def outcomeIsReady : Except String VBD → Bool
  | Except.ok vbd => vbd.Attached && vbd.Device != ""
  | Except.error _ => false

/-- The poller contract over the sequence of per-tick outcomes before the
deadline: the first outcome that ends the wait, or the timeout error when there is
none. -/
def pollerContract (timeoutError : String) (outcomes : List (Except String VBD)) :
    Except String VBD :=
  match outcomes.find? outcomeIsReady with
  | some o => o
  | none => Except.error timeoutError

/-- The polling interval that spec 4.2 states, in seconds. -/
def specPollIntervalSeconds : Nat := 1

/-- The overall deadline that spec 4.2 states, two minutes, in seconds. -/
def specPollDeadlineSeconds : Nat := 2 * 60

/-- The number of ticks of a ticker with the given period that fire strictly before
a timeout: the ticks at one period, two periods, and so on (milliseconds). -/
def ticksBefore (timeoutMs intervalMs : Nat) : Nat := (timeoutMs - 1) / intervalMs

/-- The contract documented on `Mounter.Unmount` in `mounter.go`, with respect to
two observations of the state, whether a path exists and whether it is a mount
point: on an absent path it does nothing and returns no error; on a directory that
is not a mount point, and on a mount point, a call that returns no error leaves
the path removed (and unmounted). -/
structure UnmountContract {σ : Type} (m : Mounter σ)
    (pathExists isMountPoint : String → σ → Bool) : Prop where
  absent : ∀ target s, pathExists target s = false → m.Unmount target s = (none, s)
  directory : ∀ target s, pathExists target s = true → isMountPoint target s = false →
    (m.Unmount target s).1 = none → pathExists target (m.Unmount target s).2 = false
  mounted : ∀ target s, pathExists target s = true → isMountPoint target s = true →
    (m.Unmount target s).1 = none →
      pathExists target (m.Unmount target s).2 = false ∧
      isMountPoint target (m.Unmount target s).2 = false

/-- Whether the path is a directory of the mount-table model. -/
def MountTable.pathExists (target : String) (t : MountTable) : Bool :=
  t.dirs.contains target

/-- Whether the path is a mount point of the mount-table model. -/
def MountTable.isMountPoint (target : String) (t : MountTable) : Bool :=
  t.mounts.any (fun e => e.1 == target)

/-- The answer of an RPC that is not implemented: the Unimplemented condition, with
the world (collaborator state and call trace) left as it was. -/
def AnswersUnimplemented {σ : Type} (answer : Except Status Unit × World σ) (w : World σ) :
    Prop :=
  (∃ msg, answer.1 = Except.error ⟨Code.Unimplemented, msg⟩) ∧ answer.2 = w

/-- The answer of an RPC that rejects its request: the InvalidArgument condition, with
the world (collaborator state and call trace) left as it was. -/
def AnswersInvalidArgument {α σ : Type} (answer : Except Status α × World σ) (w : World σ) :
    Prop :=
  (∃ msg, answer.1 = Except.error ⟨Code.InvalidArgument, msg⟩) ∧ answer.2 = w

/-! ## Example inputs -/

/-- A mount capability with no filesystem type, in single-node-writer mode. -/
def exampleCapability : VolumeCapability :=
  ⟨some (AccessType.Mount "" []), some AccessMode.SINGLE_NODE_WRITER⟩

/-- Publish of volume `V1`, staged at `/stage/v1`, onto the target `/pods/p1/v1`. -/
def exampleNodePublish : NodePublishVolumeRequest :=
  ⟨"V1", [], "/stage/v1", "/pods/p1/v1", some exampleCapability, false, []⟩

/-- Stage of volume `V1` at `/stage/v1` with the publish context of device `xvdb`. -/
def exampleNodeStage : NodeStageVolumeRequest :=
  ⟨"V1", [("device", "xvdb"), ("vbd", "vbd-1")], "/stage/v1", some exampleCapability⟩

/-- Unstage of volume `V1` at `/stage/v1`. -/
def exampleNodeUnstage : NodeUnstageVolumeRequest := ⟨"V1", "/stage/v1"⟩

/-- Nothing is mounted; the staging directory exists. -/
def nothingMounted : MountTable := ⟨["/stage/v1"], []⟩

/-- The volume is staged, the target path is not mounted. -/
def stagedOnly : MountTable := ⟨["/stage/v1"], [("/stage/v1", "/dev/xvdb")]⟩

/-- The volume is staged and the target path is a bind mount of the staging path. -/
def stagedAndPublished : MountTable :=
  ⟨["/pods/p1/v1", "/stage/v1"], [("/pods/p1/v1", "/stage/v1"), ("/stage/v1", "/dev/xvdb")]⟩

/-- Read-only publish of volume `V1` with no staging path: the source is the
volume-context entry `diskMount`, the capability asks for `xfs` with the mount flag
`noatime`. -/
def exampleNodePublishReadonly : NodePublishVolumeRequest :=
  ⟨"V1", [], "", "/pods/p1/v1",
   some ⟨some (AccessType.Mount "xfs" ["noatime"]), some AccessMode.SINGLE_NODE_WRITER⟩, true,
   [("diskMount", "/mnt/disk")]⟩

/-- Publish of volume `V1` with a staging path and a volume-context entry
`diskMount`, both non-empty. -/
def exampleNodePublishBothSources : NodePublishVolumeRequest :=
  ⟨"V1", [], "/stage/v1", "/pods/p1/v1", some exampleCapability, false,
   [("diskMount", "/mnt/disk")]⟩

/-- Publish of volume `V1` with neither a staging path nor a volume-context entry. -/
def exampleNodePublishNoSource : NodePublishVolumeRequest :=
  ⟨"V1", [], "", "/pods/p1/v1", some exampleCapability, false, []⟩

/-- A stand-in for the UUID parser: the character codes of the string. -/
def exampleParse (s : String) : UUID := ⟨s.toList.map Char.toNat⟩

/-- New attachments get the id `vbd-new` and the device `xvdb`. -/
def exampleAssign (_ : Hypervisor) (_ : String) (_ : String) : String × String :=
  ("vbd-new", "xvdb")

/-- The hypervisor model with the example parser and assignment and 120 ticks. -/
def exampleBackend : XoBackend Hypervisor := hypervisorModel exampleParse exampleAssign 120

/-- The polling period that the doc comment of `WaitForVDIToBeFullyAttached` states,
500 ms. -/
def documentedPollIntervalMs : Nat := 500

/-- The hypervisor model under the ticker and timeout of the code with queries that
take no time: the ticks that fire before the timeout are all received, and the tick
at the deadline loses against the timeout. -/
def timelyBackend : XoBackend Hypervisor :=
  hypervisorModel exampleParse exampleAssign
    (ticksBefore (pollTimeoutSeconds * 1000) (pollIntervalSeconds * 1000))

/-- An attachment of volume `V1` to node `N1` that is not connected and has no
device name. -/
def unconnectedVBD : VBD := ⟨"vbd-1", false, "", "V1", "N1"⟩

/-- An unconnected attachment of volume `V1` to node `N2`. -/
def otherNodeVBD : VBD := ⟨"vbd-2", false, "", "V1", "N2"⟩

/-- An attachment of volume `V1` to node `N1` that is listed as connected before a
device name has been assigned. -/
def connectedNoDeviceVBD : VBD := ⟨"vbd-1", true, "", "V1", "N1"⟩

/-- A hypervisor model whose `vm.attachDisk` reports success but never records the
attachment, so that the poller runs into its timeout. -/
def stuckBackend : XoBackend Hypervisor :=
  { exampleBackend with AttachDisk := fun _ _ h => (Except.ok true, h) }

/-- The mount-table executor with an `Unmount` that always fails. -/
def busyMounter : Mounter MountTable :=
  { mountTableMounter with Unmount := fun _ t => (some "target is busy", t) }

/-- Volume `V1` in pool `P1`; nodes `N1` and `N2` in pool `P1`, node `N3` in pool
`P2`; the given VBD records. -/
def exampleHypervisor (vbds : List VBD) : Hypervisor :=
  ⟨[⟨"V1", "P1"⟩],
   [(exampleParse "N1", ⟨exampleParse "P1"⟩), (exampleParse "N2", ⟨exampleParse "P1"⟩),
    (exampleParse "N3", ⟨exampleParse "P2"⟩)],
   vbds⟩

/-- Cluster-level publish of volume `V1` to the given node. -/
def examplePublish (node : String) : ControllerPublishVolumeRequest :=
  ⟨"V1", node, some exampleCapability⟩

/-- A mount capability in multi-node-multi-writer mode, which `isValidCapability`
rejects. -/
def multiWriterCapability : VolumeCapability :=
  ⟨some (AccessType.Mount "" []), some AccessMode.MULTI_NODE_MULTI_WRITER⟩

/-- The stage request of the example with the multi-writer capability. -/
def exampleNodeStageMultiWriter : NodeStageVolumeRequest :=
  ⟨"V1", [("device", "xvdb"), ("vbd", "vbd-1")], "/stage/v1", some multiWriterCapability⟩

/-- A block capability in single-node-writer mode. -/
def blockCapability : VolumeCapability :=
  ⟨some AccessType.Block, some AccessMode.SINGLE_NODE_WRITER⟩

/-! ## Theorems -/

section NodeTheorems
variable {σ : Type}

theorem length_eq_zero_iff_empty (s : String) : s.length = 0 ↔ s = "" := by
  constructor
  · intro h
    have : s.data = [] := List.length_eq_zero.mp h
    exact String.ext this
  · rintro rfl; rfl

/-- C1, evaluated on the code. The branch on the answer of `IsMountPoint` is the
wrong way round: with the target path not a mount point, `NodePublishVolume`
returns success after `MkdirAll` and `IsMountPoint` and never calls `Mount`; with
the target path already a mount point, it calls `Mount` once more. -/
theorem NodePublishVolume_mount_point_branch_inverted :
    (NodePublishVolume mountTableMounter exampleNodePublish (World.init stagedOnly)).1
      = Except.ok () ∧
    (NodePublishVolume mountTableMounter exampleNodePublish (World.init stagedOnly)).2.trace
      = [Call.MkdirAll "/pods/p1/v1", Call.IsMountPoint "/pods/p1/v1"] ∧
    (NodePublishVolume mountTableMounter exampleNodePublish
        (World.init stagedAndPublished)).2.trace
      = [Call.MkdirAll "/pods/p1/v1", Call.IsMountPoint "/pods/p1/v1",
         Call.Mount "/stage/v1" "/pods/p1/v1" "ext4" ["bind"]] :=
  ⟨rfl, rfl, rfl⟩

/-- C5. For a `NodeUnstageVolume` request with non-empty volume id and staging path
whose mount query succeeds with reference count `refCount`: the `Unmount` calls of
the RPC are exactly one call on the staging path when `refCount = 1`, and none
otherwise; and when `refCount` is below or above 1 the RPC returns success. -/
theorem NodeUnstageVolume_unmounts_iff_refcount_one (m : Mounter σ)
    (req : NodeUnstageVolumeRequest) (s s1 : σ) (currentDevice : String) (refCount : Int)
    (hvol : req.VolumeId ≠ "") (hpath : req.StagingTargetPath ≠ "")
    (hq : m.GetDeviceNameFromMount req.StagingTargetPath s
      = (Except.ok (currentDevice, refCount), s1)) :
    ((NodeUnstageVolume m req (World.init s)).2.trace.filter Call.isUnmount
        = if refCount = 1 then [Call.Unmount req.StagingTargetPath] else []) ∧
    (refCount < 1 ∨ refCount > 1 →
      (NodeUnstageVolume m req (World.init s)).1 = Except.ok ()) := by
  have hv : ¬ req.VolumeId.length = 0 := fun h => hvol ((length_eq_zero_iff_empty _).mp h)
  have hp : ¬ req.StagingTargetPath.length = 0 :=
    fun h => hpath ((length_eq_zero_iff_empty _).mp h)
  simp only [NodeUnstageVolume, hv, hp, if_false, World.call, World.init, hq]
  by_cases h1 : refCount < 1
  · have : refCount ≠ 1 := by omega
    simp [h1, this, Call.isUnmount]
  · by_cases h2 : refCount > 1
    · have : refCount ≠ 1 := by omega
      simp [h1, h2, this, Call.isUnmount]
    · have h3 : refCount = 1 := by omega
      subst h3
      simp only [h1, h2, if_false]
      cases hu : m.Unmount req.StagingTargetPath s1 with
      | mk e s2 =>
        cases e <;> simp [Call.isUnmount]

/-- Witness of C5: the staged volume of the example, whose reference count is 1. -/
theorem NodeUnstageVolume_unmounts_iff_refcount_one_witness :
    ((NodeUnstageVolume mountTableMounter exampleNodeUnstage
        (World.init stagedOnly)).2.trace.filter Call.isUnmount
        = if (1 : Int) = 1 then [Call.Unmount exampleNodeUnstage.StagingTargetPath] else []) ∧
    ((1 : Int) < 1 ∨ (1 : Int) > 1 →
      (NodeUnstageVolume mountTableMounter exampleNodeUnstage (World.init stagedOnly)).1
        = Except.ok ()) :=
  NodeUnstageVolume_unmounts_iff_refcount_one mountTableMounter exampleNodeUnstage
    stagedOnly stagedOnly "/dev/xvdb" 1 (by decide) (by decide) rfl

/-- What `NodeStageVolume` does with the answer of the mount query, for a request that
passes validation, with device name `d` read from the publish context under the key
`device` and `cur` the device reported for the staging path: the comparison is with
the bare name, so if `cur = d` the RPC returns success and makes no format-and-mount
call; otherwise its format-and-mount calls are exactly one, with source `/dev/`
followed by `d`, the staging path, the filesystem type of the capability (`ext4`
when empty) and no options, and the RPC returns success when that call succeeds and
an Internal error when it fails. -/
theorem NodeStageVolume_restage_or_format (m : Mounter σ) (req : NodeStageVolumeRequest)
    (s s1 : σ) (volCap : VolumeCapability) (fs : String) (flags : List String)
    (cur : String) (refCount : Int)
    (hvol : req.VolumeId ≠ "") (hpath : req.StagingTargetPath ≠ "")
    (hcap : req.VolumeCapability = some volCap) (hmount : volCap.GetMount = some (fs, flags))
    (hdev : req.PublishContext.get "device" ≠ "")
    (hq : m.GetDeviceNameFromMount req.StagingTargetPath s
      = (Except.ok (cur, refCount), s1)) :
    (cur = req.PublishContext.get "device" →
      (NodeStageVolume m req (World.init s)).1 = Except.ok () ∧
      (NodeStageVolume m req (World.init s)).2.trace.filter Call.isFormatAndMount = []) ∧
    (cur ≠ req.PublishContext.get "device" →
      (NodeStageVolume m req (World.init s)).2.trace.filter Call.isFormatAndMount
        = [Call.FormatAndMount ("/dev/" ++ req.PublishContext.get "device")
            req.StagingTargetPath (if fs = "" then "ext4" else fs) []] ∧
      ((m.FormatAndMount ("/dev/" ++ req.PublishContext.get "device")
            req.StagingTargetPath (if fs = "" then "ext4" else fs) [] s1).1 = none →
        (NodeStageVolume m req (World.init s)).1 = Except.ok ()) ∧
      ((m.FormatAndMount ("/dev/" ++ req.PublishContext.get "device")
            req.StagingTargetPath (if fs = "" then "ext4" else fs) [] s1).1 ≠ none →
        ∃ msg, (NodeStageVolume m req (World.init s)).1
          = Except.error ⟨Code.Internal, msg⟩)) := by
  have hv : ¬ req.VolumeId.length = 0 := fun h => hvol ((length_eq_zero_iff_empty _).mp h)
  have hp : ¬ req.StagingTargetPath.length = 0 :=
    fun h => hpath ((length_eq_zero_iff_empty _).mp h)
  have hd : (req.PublishContext.get "device" == "") = false := by simpa using hdev
  simp only [NodeStageVolume, hv, hp, if_false, hcap, hmount, hd, World.call, World.init, hq,
    DefaultFsType]
  constructor
  · intro h
    simp [h, Call.isFormatAndMount]
  · intro h
    have hne : (cur == req.PublishContext.get "device") = false := by simpa using h
    simp only [hne, beq_iff_eq]
    cases hu : m.FormatAndMount ("/dev/" ++ req.PublishContext.get "device")
        req.StagingTargetPath (if fs = "" then "ext4" else fs) [] s1 with
    | mk e s2 =>
      cases e <;> simp [Call.isFormatAndMount]

/-- The device path that `NodeStageVolume` mounts is never the bare device name. -/
theorem devicePath_ne_device (d : String) : "/dev/" ++ d ≠ d := by
  intro h
  have hl := congrArg String.length h
  rw [String.length_append] at hl
  have h5 : "/dev/".length = 5 := by decide
  omega

/-- C6, evaluated on the code. For a `NodeStageVolume` request that passes validation,
with device name `d` read from the publish context: when the mount executor reports
that the device backing the staging path is the target device, `/dev/` followed by
`d`, which is the source this RPC mounts there, the RPC is not a no-op. It compares
the reported device with the bare name `d` and invokes format-and-mount once more,
with source `/dev/` followed by `d`, the staging path, the filesystem type of the
capability (`ext4` when empty) and no options; it returns success when that call
succeeds and Internal when it fails. -/
theorem NodeStageVolume_formats_staged_device (m : Mounter σ) (req : NodeStageVolumeRequest)
    (s s1 : σ) (volCap : VolumeCapability) (fs : String) (flags : List String)
    (refCount : Int)
    (hvol : req.VolumeId ≠ "") (hpath : req.StagingTargetPath ≠ "")
    (hcap : req.VolumeCapability = some volCap) (hmount : volCap.GetMount = some (fs, flags))
    (hdev : req.PublishContext.get "device" ≠ "")
    (hq : m.GetDeviceNameFromMount req.StagingTargetPath s
      = (Except.ok ("/dev/" ++ req.PublishContext.get "device", refCount), s1)) :
    (NodeStageVolume m req (World.init s)).2.trace
      = [Call.GetDeviceNameFromMount req.StagingTargetPath,
         Call.FormatAndMount ("/dev/" ++ req.PublishContext.get "device")
           req.StagingTargetPath (if fs = "" then "ext4" else fs) []] ∧
    ((m.FormatAndMount ("/dev/" ++ req.PublishContext.get "device")
          req.StagingTargetPath (if fs = "" then "ext4" else fs) [] s1).1 = none →
      (NodeStageVolume m req (World.init s)).1 = Except.ok ()) ∧
    (∀ err, (m.FormatAndMount ("/dev/" ++ req.PublishContext.get "device")
          req.StagingTargetPath (if fs = "" then "ext4" else fs) [] s1).1 = some err →
      (NodeStageVolume m req (World.init s)).1
        = Except.error ⟨Code.Internal, "failed to ensure filesystem: " ++ err⟩) := by
  have hv : ¬ req.VolumeId.length = 0 := fun h => hvol ((length_eq_zero_iff_empty _).mp h)
  have hp : ¬ req.StagingTargetPath.length = 0 :=
    fun h => hpath ((length_eq_zero_iff_empty _).mp h)
  have hd : (req.PublishContext.get "device" == "") = false := by simpa using hdev
  have hne : ("/dev/" ++ req.PublishContext.get "device" == req.PublishContext.get "device")
      = false := by simpa using devicePath_ne_device (req.PublishContext.get "device")
  simp only [NodeStageVolume, hv, hp, if_false, hcap, hmount, hd, World.call, World.init, hq,
    DefaultFsType, hne, beq_iff_eq]
  cases hu : m.FormatAndMount ("/dev/" ++ req.PublishContext.get "device")
      req.StagingTargetPath (if fs = "" then "ext4" else fs) [] s1 with
  | mk e s2 =>
    cases e <;> simp

/-- Witness of C6: the volume is staged, the mount table reports `/dev/xvdb` for the
staging path, and staging device `xvdb` there formats and mounts again. -/
theorem NodeStageVolume_formats_staged_device_witness :
    mountTableMounter.GetDeviceNameFromMount exampleNodeStage.StagingTargetPath stagedOnly
      = (Except.ok ("/dev/" ++ exampleNodeStage.PublishContext.get "device", 1), stagedOnly) ∧
    (NodeStageVolume mountTableMounter exampleNodeStage (World.init stagedOnly)).2.trace
      = [Call.GetDeviceNameFromMount "/stage/v1",
         Call.FormatAndMount "/dev/xvdb" "/stage/v1" "ext4" []] :=
  ⟨rfl,
   (NodeStageVolume_formats_staged_device mountTableMounter exampleNodeStage stagedOnly
      stagedOnly exampleCapability "" [] 1 (by decide) (by decide) rfl rfl (by decide)
      rfl).1⟩

/-- C7, evaluated on the code. Over the mount-table model, the first
`NodeStageVolume` of device `xvdb` at `/stage/v1` succeeds and mounts `/dev/xvdb`
there; the mount table then reports the device `/dev/xvdb` with reference count 1
for the staging path; and the second identical call, which compares that device
with the bare name `xvdb`, formats and mounts again. -/
theorem NodeStageVolume_second_call_formats_again :
    (NodeStageVolume mountTableMounter exampleNodeStage (World.init nothingMounted)).1
      = Except.ok () ∧
    (NodeStageVolume mountTableMounter exampleNodeStage (World.init nothingMounted)).2.st.deviceAndRefs
        "/stage/v1" = ("/dev/xvdb", 1) ∧
    (NodeStageVolume mountTableMounter exampleNodeStage
        (World.init (NodeStageVolume mountTableMounter exampleNodeStage
          (World.init nothingMounted)).2.st)).2.trace
      = [Call.GetDeviceNameFromMount "/stage/v1",
         Call.FormatAndMount "/dev/xvdb" "/stage/v1" "ext4" []] :=
  ⟨rfl, rfl, rfl⟩

end NodeTheorems

section ControllerLemmas
variable {σ : Type}

theorem ControllerPublishVolume_of_enumerates (c : XoBackend σ)
    (req : ControllerPublishVolumeRequest) (s s3 : σ) (vdi : VDI) (vbds : List VBD)
    (h : PublishEnumerates c req s vdi vbds s3) :
    ControllerPublishVolume c req (World.init s)
      = publishFromVBDs c vdi req.NodeId vbds ⟨s3, lookupCalls c req⟩ := by
  obtain ⟨hn, hc, hv, s1, s2, nodeVM, allVDBs, h1, h2, h3, h4, h5⟩ := h
  have hn2 : (req.NodeId == "") = false := by simpa using hn
  have hv2 : (req.VolumeId == "") = false := by simpa using hv
  simp [ControllerPublishVolume, hn2, hv2, hc, GetVDI, VMGetByID, IsVDIUsedAnywhere,
    World.call, World.init, h1, h2, h3, h4, h5, lookupCalls]

theorem scanVBDs_error_of_mem (vm : String) (vbds : List VBD) (b : VBD) (hb : b ∈ vbds)
    (ha : b.Attached = true) (hn : b.VmId ≠ vm) (acc : Option VBD) :
    ∃ v, scanVBDs vm vbds acc = Except.error v ∧ v.Attached = true ∧ v.VmId ≠ vm := by
  induction vbds generalizing acc with
  | nil => cases hb
  | cons x rest ih =>
    unfold scanVBDs
    by_cases hx : (x.Attached && x.VmId != vm) = true
    · simp only [hx, if_true]
      refine ⟨x, rfl, ?_⟩
      simpa using hx
    · simp only [hx, if_false]
      have hbr : b ∈ rest := by
        rcases List.mem_cons.mp hb with rfl | h
        · exact absurd (by simp [ha, hn]) hx
        · exact h
      by_cases hy : (x.VmId == vm) = true
      · simp only [hy, if_true]; exact ih hbr _
      · simp only [hy]; exact ih hbr _

theorem scanVBDs_ok_of_none_elsewhere (vm : String) (vbds : List VBD)
    (h : ∀ b ∈ vbds, b.Attached = true → b.VmId = vm) (acc : Option VBD) :
    scanVBDs vm vbds acc
      = Except.ok (match (vbds.filter (fun v => v.VmId == vm)).getLast? with
          | some v => some v
          | none => acc) := by
  induction vbds generalizing acc with
  | nil => simp [scanVBDs]
  | cons x rest ih =>
    have hrest : ∀ b ∈ rest, b.Attached = true → b.VmId = vm :=
      fun b hb => h b (List.mem_cons_of_mem _ hb)
    have hx : (x.Attached && x.VmId != vm) = false := by
      cases hxa : x.Attached with
      | false => simp
      | true => simp [h x (List.mem_cons_self _ _) hxa]
    unfold scanVBDs
    rw [if_neg (by simp [hx])]
    by_cases hy : (x.VmId == vm) = true
    · have hf : List.filter (fun v => v.VmId == vm) (x :: rest)
          = x :: List.filter (fun v => v.VmId == vm) rest := List.filter_cons_of_pos hy
      rw [if_pos hy, ih hrest, hf, List.getLast?_cons]
      cases (List.filter (fun v => v.VmId == vm) rest).getLast? <;> rfl
    · have hf : List.filter (fun v => v.VmId == vm) (x :: rest)
          = List.filter (fun v => v.VmId == vm) rest := List.filter_cons_of_neg hy
      rw [if_neg hy, ih hrest, hf]

theorem none_elsewhere_of_scanVBDs_ok (vm : String) (vbds : List VBD) (acc r : Option VBD)
    (h : scanVBDs vm vbds acc = Except.ok r) :
    ∀ b ∈ vbds, b.Attached = true → b.VmId = vm := by
  intro b hb ha
  by_contra hn
  obtain ⟨v, hv, _⟩ := scanVBDs_error_of_mem vm vbds b hb ha hn acc
  rw [hv] at h
  cases h

theorem GetVBDFromVDIAndVM_trace (c : XoBackend σ) (vdi : VDI) (vm : String) (w : World σ) :
    (GetVBDFromVDIAndVM c vdi vm w).2.trace = w.trace ++ [Call.GetAllVBDs] := by
  unfold GetVBDFromVDIAndVM World.call
  cases h : c.GetAllVBDs w.st with
  | mk r s1 =>
    cases r with
    | error e => rfl
    | ok all =>
      simp only
      cases List.find? (fun vdb => vdb.VDI == vdi.VDIId && vdb.VmId == vm) all <;> rfl

theorem waitLoop_trace (c : XoBackend σ) (vdi : VDI) (vm : String) (n : Nat) (w : World σ) :
    ∃ k, k ≤ n ∧
      (waitLoop c vdi vm n w).2.trace = w.trace ++ List.replicate k Call.GetAllVBDs := by
  induction n generalizing w with
  | zero => exact ⟨0, le_refl _, by simp [waitLoop]⟩
  | succ n ih =>
    have ht := GetVBDFromVDIAndVM_trace c vdi vm w
    unfold waitLoop
    cases hq : GetVBDFromVDIAndVM c vdi vm w with
    | mk r w1 =>
      rw [hq] at ht
      simp only at ht
      have step : ∃ k, k ≤ n + 1 ∧ (waitLoop c vdi vm n w1).2.trace
          = w.trace ++ List.replicate k Call.GetAllVBDs := by
        obtain ⟨k, hk, hk2⟩ := ih w1
        refine ⟨k + 1, by omega, ?_⟩
        rw [hk2, ht, List.replicate_succ, List.append_assoc]
        rfl
      cases r with
      | error e => exact step
      | ok vbd =>
        simp only
        by_cases hready : (vbd.Attached && vbd.Device != "") = true
        · rw [if_pos hready]
          exact ⟨1, by omega, by simpa using ht⟩
        · rw [if_neg hready]
          exact step

theorem filter_replicate_GetAllVBDs (p : Call → Bool) (hp : p Call.GetAllVBDs = false) (k : Nat) :
    (List.replicate k Call.GetAllVBDs).filter p = [] := by
  induction k with
  | zero => rfl
  | succ k ih => rw [List.replicate_succ, List.filter_cons_of_neg (by simp [hp]), ih]

theorem AttachVDIToVM_trace (c : XoBackend σ) (vdi : VDI) (vm : String) (w : World σ) :
    ∃ k, (AttachVDIToVM c vdi vm w).2.trace
      = w.trace ++ Call.AttachDisk vdi.VDIId vm :: List.replicate k Call.GetAllVBDs := by
  unfold AttachVDIToVM World.call
  cases h : c.AttachDisk vdi.VDIId vm w.st with
  | mk r s1 =>
    cases r with
    | error e => exact ⟨0, by simp⟩
    | ok result =>
      cases result with
      | false => exact ⟨0, by simp⟩
      | true =>
        obtain ⟨k, _, hk⟩ := waitLoop_trace c vdi vm (min c.pollTicks maxPollTicks)
          ⟨s1, w.trace ++ [Call.AttachDisk vdi.VDIId vm]⟩
        refine ⟨k, ?_⟩
        simp only [WaitForVDIToBeFullyAttached, Bool.not_true, Bool.false_eq_true, if_false]
        cases hw : waitLoop c vdi vm (min c.pollTicks maxPollTicks)
            ⟨s1, w.trace ++ [Call.AttachDisk vdi.VDIId vm]⟩ with
        | mk r2 w2 =>
          rw [hw] at hk
          cases r2 <;> simpa using hk

theorem AttachVDIToVM_ok_iff (c : XoBackend σ) (vdi : VDI) (vm : String) (w : World σ)
    (vbd : VBD) :
    (AttachVDIToVM c vdi vm w).1 = Except.ok vbd ↔
      ∃ s4, c.AttachDisk vdi.VDIId vm w.st = (Except.ok true, s4) ∧
        (WaitForVDIToBeFullyAttached c vdi vm
          ⟨s4, w.trace ++ [Call.AttachDisk vdi.VDIId vm]⟩).1 = Except.ok vbd := by
  unfold AttachVDIToVM World.call
  cases h : c.AttachDisk vdi.VDIId vm w.st with
  | mk r s1 =>
    cases r with
    | error e => simp
    | ok result =>
      cases result with
      | false => simp
      | true =>
        simp only [Bool.not_true, Bool.false_eq_true, if_false]
        cases hw : WaitForVDIToBeFullyAttached c vdi vm
            ⟨s1, w.trace ++ [Call.AttachDisk vdi.VDIId vm]⟩ with
        | mk r2 w2 =>
          cases r2 <;> simp [hw]

theorem enumerates_of_ControllerPublishVolume_ok (c : XoBackend σ)
    (req : ControllerPublishVolumeRequest) (s : σ) (ctx : GoMap)
    (h : (ControllerPublishVolume c req (World.init s)).1 = Except.ok ctx) :
    ∃ vdi vbds s3, PublishEnumerates c req s vdi vbds s3 := by
  by_cases hn : req.NodeId = ""
  · simp [ControllerPublishVolume, hn] at h
  by_cases hc : isValidCapability req.VolumeCapability = true
  swap
  · have hn2 : (req.NodeId == "") = false := by simpa using hn
    simp [ControllerPublishVolume, hn2, hc] at h
  by_cases hv : req.VolumeId = ""
  · have hn2 : (req.NodeId == "") = false := by simpa using hn
    simp [ControllerPublishVolume, hn2, hc, hv] at h
  have hn2 : (req.NodeId == "") = false := by simpa using hn
  have hv2 : (req.VolumeId == "") = false := by simpa using hv
  cases h1 : c.GetVDI req.VolumeId s with
  | mk r1 s1 =>
    cases r1 with
    | error e => simp [ControllerPublishVolume, hn2, hc, hv2, GetVDI, World.call, World.init, h1] at h
    | ok vdi =>
      cases h2 : c.VMGetByID (c.FromStringOrNil req.NodeId) s1 with
      | mk r2 s2 =>
        cases r2 with
        | error e =>
          simp [ControllerPublishVolume, hn2, hc, hv2, GetVDI, VMGetByID, World.call,
            World.init, h1, h2] at h
        | ok nodeVM =>
          by_cases hp : nodeVM.PoolID = c.FromStringOrNil vdi.PoolId
          swap
          · simp [ControllerPublishVolume, hn2, hc, hv2, GetVDI, VMGetByID, World.call,
              World.init, h1, h2, hp] at h
          cases h3 : c.GetAllVBDs s2 with
          | mk r3 s3 =>
            cases r3 with
            | error e =>
              simp [ControllerPublishVolume, hn2, hc, hv2, GetVDI, VMGetByID,
                IsVDIUsedAnywhere, World.call, World.init, h1, h2, hp, h3] at h
            | ok all =>
              exact ⟨vdi, _, s3, hn, hc, hv, s1, s2, nodeVM, all, h1, h2, hp, h3, rfl⟩

theorem hypervisorModel_enumerates (parse : String → UUID)
    (assign : Hypervisor → String → String → String × String) (ticks : Nat)
    (req : ControllerPublishVolumeRequest) (h : Hypervisor) (vdi : VDI) (vbds : List VBD)
    (s3 : Hypervisor)
    (he : PublishEnumerates (hypervisorModel parse assign ticks) req h vdi vbds s3) :
    vdi.VDIId = req.VolumeId ∧
    ∀ h2 : Hypervisor, h2.vdis = h.vdis → h2.vms = h.vms →
      PublishEnumerates (hypervisorModel parse assign ticks) req h2 vdi
        (h2.vbds.filter (fun vdb => vdb.VDI == vdi.VDIId)) h2 := by
  obtain ⟨hn, hc, hv, s1, s2, nodeVM, all, h1, h2, hp, h3, h4⟩ := he
  simp only [hypervisorModel] at h1 h2 h3 hp
  have hs1 : s1 = h := (congrArg Prod.snd h1).symm
  subst hs1
  have hs2 : s2 = s1 := (congrArg Prod.snd h2).symm
  subst hs2
  have hf1 := congrArg Prod.fst h1
  have hf2 := congrArg Prod.fst h2
  simp only at hf1 hf2
  cases hfind : List.find? (fun v => v.VDIId == req.VolumeId) s2.vdis with
  | none => rw [hfind] at hf1; cases hf1
  | some v0 =>
    rw [hfind] at hf1
    have hv0 : v0 = vdi := by simpa using hf1
    subst hv0
    have hid : v0.VDIId = req.VolumeId := by
      have := List.find?_some hfind
      simpa using this
    cases hlook : List.lookup (parse req.NodeId) s2.vms with
    | none => rw [hlook] at hf2; cases hf2
    | some vm0 =>
      rw [hlook] at hf2
      have hvm : vm0 = nodeVM := by simpa using hf2
      subst hvm
      refine ⟨hid, ?_⟩
      intro h2 hvd hvms
      refine ⟨hn, hc, hv, h2, h2, vm0, h2.vbds, ?_, ?_, hp, rfl, rfl⟩
      · simp only [hypervisorModel, hvd, hfind]
      · simp only [hypervisorModel, hvms, hlook]

theorem hypervisorModel_waitLoop (parse : String → UUID)
    (assign : Hypervisor → String → String → String × String) (ticks : Nat)
    (vdi : VDI) (vm : String) (n : VBD) (k : Nat) (w : World Hypervisor)
    (hfind : w.st.vbds.find? (fun vdb => vdb.VDI == vdi.VDIId && vdb.VmId == vm) = some n) :
    (waitLoop (hypervisorModel parse assign ticks) vdi vm k w).2.st = w.st ∧
    ∀ vbd, (waitLoop (hypervisorModel parse assign ticks) vdi vm k w).1 = Except.ok vbd →
      vbd = n := by
  induction k generalizing w with
  | zero =>
    refine ⟨rfl, ?_⟩
    intro vbd hv
    simp [waitLoop] at hv
  | succ k ih =>
    have hq : GetVBDFromVDIAndVM (hypervisorModel parse assign ticks) vdi vm w
        = (Except.ok n, ⟨w.st, w.trace ++ [Call.GetAllVBDs]⟩) := by
      simp [GetVBDFromVDIAndVM, World.call, hypervisorModel, hfind]
    unfold waitLoop
    rw [hq]
    simp only
    by_cases hready : (n.Attached && n.Device != "") = true
    · rw [if_pos hready]
      exact ⟨rfl, fun vbd hv => by simpa using hv.symm⟩
    · rw [if_neg hready]
      exact ih ⟨w.st, w.trace ++ [Call.GetAllVBDs]⟩ hfind

theorem AttachVDIToVM_snd (c : XoBackend σ) (vdi : VDI) (vm : String) (w : World σ) (s4 : σ)
    (h : c.AttachDisk vdi.VDIId vm w.st = (Except.ok true, s4)) :
    (AttachVDIToVM c vdi vm w).2
      = (WaitForVDIToBeFullyAttached c vdi vm
          ⟨s4, w.trace ++ [Call.AttachDisk vdi.VDIId vm]⟩).2 := by
  unfold AttachVDIToVM World.call
  rw [h]
  simp only [Bool.not_true, Bool.false_eq_true, if_false]
  cases hw : WaitForVDIToBeFullyAttached c vdi vm
      ⟨s4, w.trace ++ [Call.AttachDisk vdi.VDIId vm]⟩ with
  | mk r2 w2 => cases r2 <;> rfl

theorem publishByAttach_snd (c : XoBackend σ) (vdi : VDI) (vm : String) (w : World σ) :
    (publishByAttach c vdi vm w).2 = (AttachVDIToVM c vdi vm w).2 := by
  unfold publishByAttach
  cases h : AttachVDIToVM c vdi vm w with
  | mk r w1 => cases r <;> rfl

theorem publishByAttach_ok (c : XoBackend σ) (vdi : VDI) (vm : String) (w : World σ)
    (ctx : GoMap) (h : (publishByAttach c vdi vm w).1 = Except.ok ctx) :
    ∃ vbd, (AttachVDIToVM c vdi vm w).1 = Except.ok vbd ∧ ctx = publishContextFromVBD vbd := by
  unfold publishByAttach at h
  cases hA : AttachVDIToVM c vdi vm w with
  | mk r w1 =>
    rw [hA] at h
    cases r with
    | error e => cases h
    | ok vbd =>
      simp only [Except.ok.injEq] at h
      exact ⟨vbd, rfl, h.symm⟩

theorem examplePublish_enumerates (node : String) (vbds : List VBD)
    (hnode : node = "N1" ∨ node = "N2") :
    PublishEnumerates exampleBackend (examplePublish node) (exampleHypervisor vbds) ⟨"V1", "P1"⟩
      (vbds.filter (fun vdb => vdb.VDI == "V1")) (exampleHypervisor vbds) := by
  rcases hnode with rfl | rfl
  · exact ⟨by decide, rfl, by decide, exampleHypervisor vbds, exampleHypervisor vbds,
      ⟨exampleParse "P1"⟩, vbds, rfl, rfl, rfl, rfl, rfl⟩
  · exact ⟨by decide, rfl, by decide, exampleHypervisor vbds, exampleHypervisor vbds,
      ⟨exampleParse "P1"⟩, vbds, rfl, rfl, rfl, rfl, rfl⟩

end ControllerLemmas

section ControllerTheorems
variable {σ : Type}

/-- C2. For a valid `ControllerPublishVolume` request for node B whose lookups
succeed and whose pools match, if the enumerated attachment list contains, at any
position, an attachment `b` with connected = true that belongs to another node,
then the RPC fails with FailedPrecondition and its trace holds neither a connect
nor an add-and-attach call, whatever else the list contains. -/
theorem ControllerPublishVolume_attached_elsewhere (c : XoBackend σ)
    (req : ControllerPublishVolumeRequest) (s s3 : σ) (vdi : VDI) (vbds : List VBD) (b : VBD)
    (h : PublishEnumerates c req s vdi vbds s3)
    (hb : b ∈ vbds) (ha : b.Attached = true) (hn : b.VmId ≠ req.NodeId) :
    (∃ msg, (ControllerPublishVolume c req (World.init s)).1
        = Except.error ⟨Code.FailedPrecondition, msg⟩) ∧
    (ControllerPublishVolume c req (World.init s)).2.trace.filter Call.isConnect = [] ∧
    (ControllerPublishVolume c req (World.init s)).2.trace.filter Call.isAttach = [] := by
  rw [ControllerPublishVolume_of_enumerates c req s s3 vdi vbds h]
  obtain ⟨v, hv, _, _⟩ := scanVBDs_error_of_mem req.NodeId vbds b hb ha hn none
  have hlen : vbds.length > 0 := List.length_pos_of_mem hb
  simp only [publishFromVBDs, hlen, if_true, hv]
  exact ⟨⟨_, rfl⟩, rfl, rfl⟩

/-- Witness of C2: volume `V1` has a stale record for `N1` and a connected one for
`N2`; publish to `N1`. -/
theorem ControllerPublishVolume_attached_elsewhere_witness :
    (∃ msg, (ControllerPublishVolume exampleBackend (examplePublish "N1")
        (World.init (exampleHypervisor
          [⟨"vbd-1", false, "", "V1", "N1"⟩, ⟨"vbd-2", true, "xvdb", "V1", "N2"⟩]))).1
        = Except.error ⟨Code.FailedPrecondition, msg⟩) ∧
    (ControllerPublishVolume exampleBackend (examplePublish "N1")
        (World.init (exampleHypervisor
          [⟨"vbd-1", false, "", "V1", "N1"⟩, ⟨"vbd-2", true, "xvdb", "V1", "N2"⟩]))).2.trace.filter
        Call.isConnect = [] ∧
    (ControllerPublishVolume exampleBackend (examplePublish "N1")
        (World.init (exampleHypervisor
          [⟨"vbd-1", false, "", "V1", "N1"⟩, ⟨"vbd-2", true, "xvdb", "V1", "N2"⟩]))).2.trace.filter
        Call.isAttach = [] :=
  ControllerPublishVolume_attached_elsewhere exampleBackend (examplePublish "N1") _ _ _ _
    ⟨"vbd-2", true, "xvdb", "V1", "N2"⟩
    (examplePublish_enumerates "N1" _ (Or.inl rfl)) (by decide) rfl (by decide)

/-- C4. For a valid `ControllerPublishVolume` request whose volume and node
lookups succeed, if the pool of the node differs from the (parsed) pool id of the
volume, the RPC fails with FailedPrecondition having made only the two lookups:
the attachments are not enumerated and no connect, add-and-attach or disconnect
is issued. -/
theorem ControllerPublishVolume_pool_mismatch (c : XoBackend σ)
    (req : ControllerPublishVolumeRequest) (s s1 s2 : σ) (vdi : VDI) (nodeVM : VM)
    (hnode : req.NodeId ≠ "") (hcap : isValidCapability req.VolumeCapability = true)
    (hvol : req.VolumeId ≠ "")
    (hvdi : c.GetVDI req.VolumeId s = (Except.ok vdi, s1))
    (hvm : c.VMGetByID (c.FromStringOrNil req.NodeId) s1 = (Except.ok nodeVM, s2))
    (hpool : nodeVM.PoolID ≠ c.FromStringOrNil vdi.PoolId) :
    (∃ msg, (ControllerPublishVolume c req (World.init s)).1
        = Except.error ⟨Code.FailedPrecondition, msg⟩) ∧
    (ControllerPublishVolume c req (World.init s)).2.trace
        = [Call.GetVDI req.VolumeId, Call.VMGetByID (c.FromStringOrNil req.NodeId)] ∧
    Call.GetAllVBDs ∉ (ControllerPublishVolume c req (World.init s)).2.trace ∧
    (ControllerPublishVolume c req (World.init s)).2.trace.filter Call.isHypervisorMutation
        = [] := by
  have hn2 : (req.NodeId == "") = false := by simpa using hnode
  have hv2 : (req.VolumeId == "") = false := by simpa using hvol
  simp [ControllerPublishVolume, hn2, hv2, hcap, GetVDI, VMGetByID, World.call, World.init,
    hvdi, hvm, hpool, Call.isHypervisorMutation, Call.isConnect, Call.isDisconnect,
    Call.isAttach]

/-- Witness of C4: volume `V1` of pool `P1` published to node `N3` of pool `P2`. -/
theorem ControllerPublishVolume_pool_mismatch_witness :
    (ControllerPublishVolume exampleBackend (examplePublish "N3")
        (World.init (exampleHypervisor []))).2.trace
      = [Call.GetVDI "V1", Call.VMGetByID (exampleParse "N3")] :=
  (ControllerPublishVolume_pool_mismatch exampleBackend (examplePublish "N3")
    (exampleHypervisor []) (exampleHypervisor []) (exampleHypervisor []) ⟨"V1", "P1"⟩
    ⟨exampleParse "P2"⟩ (by decide) rfl (by decide) rfl rfl (by decide)).2.1

/-- C8. For a valid `ControllerPublishVolume` request for node N (lookups succeed,
pools match) and an enumerated list in which no attachment is connected to another
node and exactly one attachment `a` belongs to N: no add-and-attach is issued; if
`a` is not connected, the hypervisor mutations are exactly one connect of `a`, and
the RPC succeeds when that connect does; if `a` is connected, no hypervisor
mutation is issued and the RPC succeeds; and every successful result is the publish
context with `a.Device` under `device` and `a.Id` under `vbd`. -/
theorem ControllerPublishVolume_existing_attachment (c : XoBackend σ)
    (req : ControllerPublishVolumeRequest) (s s3 : σ) (vdi : VDI) (vbds : List VBD) (a : VBD)
    (h : PublishEnumerates c req s vdi vbds s3)
    (helse : ∀ v ∈ vbds, v.Attached = true → v.VmId = req.NodeId)
    (hone : vbds.filter (fun v => v.VmId == req.NodeId) = [a]) :
    (ControllerPublishVolume c req (World.init s)).2.trace.filter Call.isAttach = [] ∧
    (a.Attached = false →
      (ControllerPublishVolume c req (World.init s)).2.trace.filter Call.isHypervisorMutation
        = [Call.ConnectDisk a] ∧
      ((c.ConnectDisk a s3).1 = none →
        (ControllerPublishVolume c req (World.init s)).1
          = Except.ok [("device", a.Device), ("vbd", a.Id)])) ∧
    (a.Attached = true →
      (ControllerPublishVolume c req (World.init s)).2.trace.filter Call.isHypervisorMutation
        = [] ∧
      (ControllerPublishVolume c req (World.init s)).1
        = Except.ok [("device", a.Device), ("vbd", a.Id)]) ∧
    (∀ ctx, (ControllerPublishVolume c req (World.init s)).1 = Except.ok ctx →
      ctx = [("device", a.Device), ("vbd", a.Id)]) := by
  rw [ControllerPublishVolume_of_enumerates c req s s3 vdi vbds h]
  have hscan := scanVBDs_ok_of_none_elsewhere req.NodeId vbds helse none
  rw [hone] at hscan
  have hmem : a ∈ vbds := by
    have : a ∈ vbds.filter (fun v => v.VmId == req.NodeId) := by rw [hone]; simp
    exact (List.mem_filter.mp this).1
  have hlen : vbds.length > 0 := List.length_pos_of_mem hmem
  simp only [publishFromVBDs, hlen, if_true, hscan, List.getLast?_singleton]
  cases hatt : a.Attached with
  | true =>
    simp [lookupCalls, publishContextFromVBD, Call.isAttach, Call.isHypervisorMutation,
      Call.isConnect, Call.isDisconnect]
  | false =>
    simp only [Bool.not_false, if_true, ConnectVBDToVM, World.call]
    cases hc : c.ConnectDisk a s3 with
    | mk e s4 =>
      cases e <;>
        simp [lookupCalls, publishContextFromVBD, Call.isAttach, Call.isHypervisorMutation,
          Call.isConnect, Call.isDisconnect]

/-- Witness of C8: volume `V1` has one unconnected record for `N1` and a stale
unconnected one for `N2`; publish to `N1` connects the former. -/
theorem ControllerPublishVolume_existing_attachment_witness :
    (ControllerPublishVolume exampleBackend (examplePublish "N1")
        (World.init (exampleHypervisor
          [⟨"vbd-2", false, "", "V1", "N2"⟩, ⟨"vbd-1", false, "xvdc", "V1", "N1"⟩]))).2.trace.filter
        Call.isHypervisorMutation
      = [Call.ConnectDisk ⟨"vbd-1", false, "xvdc", "V1", "N1"⟩] :=
  ((ControllerPublishVolume_existing_attachment exampleBackend (examplePublish "N1") _ _ _ _
    ⟨"vbd-1", false, "xvdc", "V1", "N1"⟩
    (examplePublish_enumerates "N1" _ (Or.inl rfl)) (by decide) (by decide)).2.1 rfl).1

/-- C3, the claim as stated fails. Volume `V1` has two records for node `N1`, a
connected one followed by an unconnected one: publish to `N1` issues a connect (of
the second) although the enumerated list holds a connected attachment. -/
theorem ControllerPublishVolume_connects_beside_connected :
    ¬ ((ControllerPublishVolume exampleBackend (examplePublish "N1")
          (World.init (exampleHypervisor
            [⟨"vbd-1", true, "xvdb", "V1", "N1"⟩, ⟨"vbd-2", false, "", "V1", "N1"⟩]))).2.trace.any
          (fun x => x.isConnect || x.isAttach) = true →
        ∀ v ∈ ([⟨"vbd-1", true, "xvdb", "V1", "N1"⟩, ⟨"vbd-2", false, "", "V1", "N1"⟩] : List VBD),
          v.Attached = false) := by
  intro h
  have h1 := h rfl ⟨"vbd-1", true, "xvdb", "V1", "N1"⟩ (by simp)
  cases h1

/-- C3, amended. For a valid `ControllerPublishVolume` request whose lookups succeed
and whose pools match, and an enumerated attachment list that holds at most one
attachment of the requested node: if the RPC issues a connect or an add-and-attach,
then no attachment in the enumerated list has connected = true. -/
theorem ControllerPublishVolume_mutates_only_when_none_connected (c : XoBackend σ)
    (req : ControllerPublishVolumeRequest) (s s3 : σ) (vdi : VDI) (vbds : List VBD)
    (h : PublishEnumerates c req s vdi vbds s3)
    (hone : (vbds.filter (fun v => v.VmId == req.NodeId)).length ≤ 1)
    (hmut : (ControllerPublishVolume c req (World.init s)).2.trace.any
      (fun x => x.isConnect || x.isAttach) = true) :
    ∀ v ∈ vbds, v.Attached = false := by
  rw [ControllerPublishVolume_of_enumerates c req s s3 vdi vbds h] at hmut
  intro v hv
  have hlen : vbds.length > 0 := List.length_pos_of_mem hv
  simp only [publishFromVBDs, hlen, if_true] at hmut
  cases hscan : scanVBDs req.NodeId vbds none with
  | error b =>
    rw [hscan] at hmut
    simp [lookupCalls, Call.isConnect, Call.isAttach] at hmut
  | ok r =>
    have helse := none_elsewhere_of_scanVBDs_ok req.NodeId vbds none r hscan
    have hr := scanVBDs_ok_of_none_elsewhere req.NodeId vbds helse none
    rw [hscan] at hmut
    by_contra hatt
    have hatt2 : v.Attached = true := by simpa using hatt
    have hvf : v ∈ vbds.filter (fun v => v.VmId == req.NodeId) :=
      List.mem_filter.mpr ⟨hv, by simp [helse v hv hatt2]⟩
    cases hf : vbds.filter (fun v => v.VmId == req.NodeId) with
    | nil => rw [hf] at hvf; cases hvf
    | cons a rest =>
      rw [hf] at hone hvf hr
      have hrest : rest = [] := by
        cases rest with
        | nil => rfl
        | cons _ _ => simp at hone
      subst hrest
      have hva : v = a := by simpa using hvf
      subst hva
      rw [hscan] at hr
      simp only [List.getLast?_singleton, Except.ok.injEq] at hr
      subst hr
      simp [hatt2, lookupCalls, Call.isConnect, Call.isAttach] at hmut

/-- Witness of the amended C3: volume `V1` has one unconnected record, for `N1`;
publish to `N1` connects it. -/
theorem ControllerPublishVolume_mutates_only_when_none_connected_witness :
    (ControllerPublishVolume exampleBackend (examplePublish "N1")
        (World.init (exampleHypervisor [⟨"vbd-1", false, "", "V1", "N1"⟩]))).2.trace.any
        (fun x => x.isConnect || x.isAttach) = true ∧
    (⟨"vbd-1", false, "", "V1", "N1"⟩ : VBD).Attached = false :=
  ⟨rfl, ControllerPublishVolume_mutates_only_when_none_connected exampleBackend
    (examplePublish "N1") (exampleHypervisor [⟨"vbd-1", false, "", "V1", "N1"⟩]) _ _ _
    (examplePublish_enumerates "N1" _ (Or.inl rfl)) (by decide) rfl
    ⟨"vbd-1", false, "", "V1", "N1"⟩ (by decide)⟩

/-- C9. For a valid `ControllerPublishVolume` request for node N (lookups succeed,
pools match) and an enumerated list with no attachment of N and no connected
attachment: the add-and-attach calls of the RPC are exactly one, for the volume and
N; no connect is issued; and the RPC succeeds with a context exactly when
`vm.attachDisk` answers true and the completion poller, run after it, returns an
attachment, the context then holding that attachment's device name under `device`
and its id under `vbd`. -/
theorem ControllerPublishVolume_new_attachment (c : XoBackend σ)
    (req : ControllerPublishVolumeRequest) (s s3 : σ) (vdi : VDI) (vbds : List VBD)
    (h : PublishEnumerates c req s vdi vbds s3)
    (hnone : ∀ v ∈ vbds, v.VmId ≠ req.NodeId ∧ v.Attached = false) :
    (ControllerPublishVolume c req (World.init s)).2.trace.filter Call.isAttach
      = [Call.AttachDisk vdi.VDIId req.NodeId] ∧
    (ControllerPublishVolume c req (World.init s)).2.trace.filter Call.isConnect = [] ∧
    (∀ ctx, (ControllerPublishVolume c req (World.init s)).1 = Except.ok ctx ↔
      ∃ s4 vbd, c.AttachDisk vdi.VDIId req.NodeId s3 = (Except.ok true, s4) ∧
        (WaitForVDIToBeFullyAttached c vdi req.NodeId
          ⟨s4, lookupCalls c req ++ [Call.AttachDisk vdi.VDIId req.NodeId]⟩).1
          = Except.ok vbd ∧
        ctx = [("device", vbd.Device), ("vbd", vbd.Id)]) := by
  rw [ControllerPublishVolume_of_enumerates c req s s3 vdi vbds h]
  have helse : ∀ v ∈ vbds, v.Attached = true → v.VmId = req.NodeId := by
    intro v hv ha
    rw [(hnone v hv).2] at ha
    cases ha
  have hfil : vbds.filter (fun v => v.VmId == req.NodeId) = [] := by
    rw [List.filter_eq_nil_iff]
    intro v hv
    simpa using (hnone v hv).1
  have hscan := scanVBDs_ok_of_none_elsewhere req.NodeId vbds helse none
  rw [hfil] at hscan
  have hred : publishFromVBDs c vdi req.NodeId vbds ⟨s3, lookupCalls c req⟩
      = publishByAttach c vdi req.NodeId ⟨s3, lookupCalls c req⟩ := by
    unfold publishFromVBDs
    by_cases hlen : vbds.length > 0
    · simp only [hlen, if_true, hscan, List.getLast?_nil]
    · simp only [hlen, if_false]
  rw [hred]
  obtain ⟨k, hk⟩ := AttachVDIToVM_trace c vdi req.NodeId ⟨s3, lookupCalls c req⟩
  have hok := AttachVDIToVM_ok_iff c vdi req.NodeId ⟨s3, lookupCalls c req⟩
  unfold publishByAttach
  cases hA : AttachVDIToVM c vdi req.NodeId ⟨s3, lookupCalls c req⟩ with
  | mk r w4 =>
    rw [hA] at hk hok
    simp only at hk hok
    have htr : ∀ (p : Call → Bool), p Call.GetAllVBDs = false →
        w4.trace.filter p = (lookupCalls c req ++ [Call.AttachDisk vdi.VDIId req.NodeId]).filter p := by
      intro p hp
      rw [hk, show lookupCalls c req ++ Call.AttachDisk vdi.VDIId req.NodeId ::
          List.replicate k Call.GetAllVBDs = (lookupCalls c req ++
          [Call.AttachDisk vdi.VDIId req.NodeId]) ++ List.replicate k Call.GetAllVBDs by simp,
        List.filter_append, filter_replicate_GetAllVBDs p hp, List.append_nil]
    cases r with
    | error e =>
      refine ⟨?_, ?_, ?_⟩
      · simp only [htr Call.isAttach rfl]; rfl
      · simp only [htr Call.isConnect rfl]; rfl
      · intro ctx
        constructor
        · intro hc; cases hc
        · rintro ⟨s4, vbd, h1, h2, _⟩
          have := (hok vbd).mpr ⟨s4, h1, h2⟩
          cases this
    | ok vbd0 =>
      refine ⟨?_, ?_, ?_⟩
      · simp only [htr Call.isAttach rfl]; rfl
      · simp only [htr Call.isConnect rfl]; rfl
      · intro ctx
        obtain ⟨s4, h1, h2⟩ := (hok vbd0).mp rfl
        constructor
        · intro hc
          refine ⟨s4, vbd0, h1, h2, ?_⟩
          simp only [publishContextFromVBD, Except.ok.injEq] at hc
          exact hc.symm
        · rintro ⟨s4b, vbd, h1b, h2b, hctx⟩
          rw [h1] at h1b
          have hs : s4 = s4b := by
            have := congrArg Prod.snd h1b
            exact this
          subst hs
          rw [h2] at h2b
          have hv : vbd0 = vbd := by simpa using h2b
          subst hv
          simp [publishContextFromVBD, hctx]

/-- Witness of C9: volume `V1` has only a stale unconnected record for `N2`;
publish to `N1` adds and attaches. -/
theorem ControllerPublishVolume_new_attachment_witness :
    (ControllerPublishVolume exampleBackend (examplePublish "N1")
        (World.init (exampleHypervisor [⟨"vbd-2", false, "", "V1", "N2"⟩]))).2.trace.filter
        Call.isAttach
      = [Call.AttachDisk "V1" "N1"] :=
  (ControllerPublishVolume_new_attachment exampleBackend (examplePublish "N1")
    (exampleHypervisor [⟨"vbd-2", false, "", "V1", "N2"⟩]) _ _ _
    (examplePublish_enumerates "N1" _ (Or.inl rfl)) (by decide)).1

/-- C10. Over the hypervisor model, in which a successful add-and-attach records a
connected attachment with its id and device name: for a volume that has no
attachment, if a `ControllerPublishVolume` succeeds with context `ctx1`, then that
context holds the device name and id of the recorded attachment, and a second
identical call made on the resulting state returns the same context and issues
neither a connect nor an add-and-attach. -/
theorem ControllerPublishVolume_idempotent (parse : String → UUID)
    (assign : Hypervisor → String → String → String × String) (ticks : Nat)
    (req : ControllerPublishVolumeRequest) (h : Hypervisor) (ctx1 : GoMap)
    (hfresh : ∀ v ∈ h.vbds, v.VDI ≠ req.VolumeId)
    (hfirst : (ControllerPublishVolume (hypervisorModel parse assign ticks) req
      (World.init h)).1 = Except.ok ctx1) :
    ctx1 = [("device", (assign h req.VolumeId req.NodeId).2),
            ("vbd", (assign h req.VolumeId req.NodeId).1)] ∧
    (ControllerPublishVolume (hypervisorModel parse assign ticks) req
      (World.init (ControllerPublishVolume (hypervisorModel parse assign ticks) req
        (World.init h)).2.st)).1 = Except.ok ctx1 ∧
    (ControllerPublishVolume (hypervisorModel parse assign ticks) req
      (World.init (ControllerPublishVolume (hypervisorModel parse assign ticks) req
        (World.init h)).2.st)).2.trace.filter Call.isConnect = [] ∧
    (ControllerPublishVolume (hypervisorModel parse assign ticks) req
      (World.init (ControllerPublishVolume (hypervisorModel parse assign ticks) req
        (World.init h)).2.st)).2.trace.filter Call.isAttach = [] := by
  obtain ⟨vdi, vbds, s3, he⟩ := enumerates_of_ControllerPublishVolume_ok _ req h ctx1 hfirst
  obtain ⟨hid, hall⟩ := hypervisorModel_enumerates parse assign ticks req h vdi vbds s3 he
  have he1 := hall h rfl rfl
  have hfil : h.vbds.filter (fun vdb => vdb.VDI == vdi.VDIId) = [] := by
    rw [List.filter_eq_nil_iff]
    intro v hv
    rw [hid]
    simpa using hfresh v hv
  rw [hfil] at he1
  have hpub : ∀ w, publishFromVBDs (hypervisorModel parse assign ticks) vdi req.NodeId [] w
      = publishByAttach (hypervisorModel parse assign ticks) vdi req.NodeId w := by
    intro w
    simp [publishFromVBDs]
  rw [ControllerPublishVolume_of_enumerates _ req h h vdi [] he1, hpub] at hfirst ⊢
  -- the first call: add-and-attach records `n`, the poller finds it
  obtain ⟨n, hn⟩ : ∃ n : VBD, n = ⟨(assign h vdi.VDIId req.NodeId).1, true,
    (assign h vdi.VDIId req.NodeId).2, vdi.VDIId, req.NodeId⟩ := ⟨_, rfl⟩
  obtain ⟨h1, hh1⟩ : ∃ h1 : Hypervisor, h1 = ⟨h.vdis, h.vms, h.vbds ++ [n]⟩ := ⟨_, rfl⟩
  have hatt : (hypervisorModel parse assign ticks).AttachDisk vdi.VDIId req.NodeId h
      = (Except.ok true, h1) := by
    rw [hh1, hn]
    rfl
  have hfind : h1.vbds.find? (fun vdb => vdb.VDI == vdi.VDIId && vdb.VmId == req.NodeId)
      = some n := by
    rw [hh1]
    show (h.vbds ++ [n]).find? _ = some n
    rw [List.find?_append]
    have hnone : h.vbds.find? (fun vdb => vdb.VDI == vdi.VDIId && vdb.VmId == req.NodeId)
        = none := by
      rw [List.find?_eq_none]
      intro v hv
      have := hfresh v hv
      rw [← hid] at this
      simp [this]
    rw [hnone, hn]
    simp
  have hw := hypervisorModel_waitLoop parse assign ticks vdi req.NodeId n
    (min ticks maxPollTicks)
    ⟨h1, lookupCalls (hypervisorModel parse assign ticks) req
      ++ [Call.AttachDisk vdi.VDIId req.NodeId]⟩ hfind
  obtain ⟨vbd, hvbd, hctx⟩ := publishByAttach_ok _ vdi req.NodeId _ ctx1 hfirst
  obtain ⟨s4, hs4, hwait⟩ := (AttachVDIToVM_ok_iff _ vdi req.NodeId _ vbd).mp hvbd
  have hs : s4 = h1 := by
    have := hs4.symm.trans hatt
    exact congrArg Prod.snd this
  subst hs
  have hvn : vbd = n := hw.2 vbd hwait
  have hst : (publishByAttach (hypervisorModel parse assign ticks) vdi req.NodeId
      ⟨h, lookupCalls (hypervisorModel parse assign ticks) req⟩).2.st = s4 := by
    rw [publishByAttach_snd, AttachVDIToVM_snd _ vdi req.NodeId _ s4 hatt]
    exact hw.1
  rw [hst]
  -- the second call: the recorded attachment is found connected
  have he2 := hall s4 (by rw [hh1]) (by rw [hh1])
  have hfil2 : s4.vbds.filter (fun vdb => vdb.VDI == vdi.VDIId) = [n] := by
    rw [hh1]
    show (h.vbds ++ [n]).filter _ = [n]
    rw [List.filter_append, hfil, hn]
    simp
  rw [hfil2] at he2
  rw [ControllerPublishVolume_of_enumerates _ req s4 s4 vdi [n] he2]
  have hna : n.Attached = true := by rw [hn]
  have hnv : n.VmId = req.NodeId := by rw [hn]
  rw [hvn] at hctx
  refine ⟨?_, ?_, ?_, ?_⟩
  · rw [hctx, hn, ← hid]
    rfl
  · rw [hctx]
    simp [publishFromVBDs, scanVBDs, hna, hnv]
  · simp [publishFromVBDs, scanVBDs, hna, hnv, lookupCalls, Call.isConnect]
  · simp [publishFromVBDs, scanVBDs, hna, hnv, lookupCalls, Call.isAttach]

/-- Witness of C10: volume `V1` without attachment, published twice to `N1`. -/
theorem ControllerPublishVolume_idempotent_witness :
    (ControllerPublishVolume exampleBackend (examplePublish "N1")
      (World.init (ControllerPublishVolume exampleBackend (examplePublish "N1")
        (World.init (exampleHypervisor []))).2.st)).1
      = Except.ok [("device", "xvdb"), ("vbd", "vbd-new")] :=
  (ControllerPublishVolume_idempotent exampleParse exampleAssign 120 (examplePublish "N1")
    (exampleHypervisor []) [("device", "xvdb"), ("vbd", "vbd-new")]
    (by decide) rfl).2.1

end ControllerTheorems

section PollerTheorems
variable {σ : Type}

theorem waitLoop_contract (c : XoBackend σ) (vdi : VDI) (vm : String) (n : Nat) (w : World σ) :
    (waitLoop c vdi vm n w).1
      = pollerContract
          ("timed out waiting for VDI " ++ vdi.VDIId ++ " to be attached to VM " ++ vm)
          (tickOutcomes c vdi vm n w) ∧
    (waitLoop c vdi vm n w).2.trace
      = w.trace ++ List.replicate
          (min n (((tickOutcomes c vdi vm n w).takeWhile
            (fun o => !outcomeIsReady o)).length + 1)) Call.GetAllVBDs := by
  induction n generalizing w with
  | zero => simp [waitLoop, tickOutcomes, pollerContract]
  | succ n ih =>
    have ht := GetVBDFromVDIAndVM_trace c vdi vm w
    unfold waitLoop tickOutcomes
    cases hq : GetVBDFromVDIAndVM c vdi vm w with
    | mk r w1 =>
      rw [hq] at ht
      simp only at ht
      have hskip : outcomeIsReady r = false →
          (waitLoop c vdi vm n w1).1
            = pollerContract
                ("timed out waiting for VDI " ++ vdi.VDIId ++ " to be attached to VM " ++ vm)
                (r :: tickOutcomes c vdi vm n w1) ∧
          (waitLoop c vdi vm n w1).2.trace
            = w.trace ++ List.replicate
                (min (n + 1) (((r :: tickOutcomes c vdi vm n w1).takeWhile
                  (fun o => !outcomeIsReady o)).length + 1)) Call.GetAllVBDs := by
        intro hr
        obtain ⟨h1, h2⟩ := ih w1
        constructor
        · rw [h1]
          simp [pollerContract, List.find?_cons, hr]
        · rw [h2, ht, List.takeWhile_cons]
          simp only [hr, Bool.not_false, if_true, List.length_cons]
          rw [Nat.add_min_add_right, List.replicate_succ, List.append_assoc]
          rfl
      cases r with
      | error e => exact hskip rfl
      | ok vbd =>
        simp only
        by_cases hready : (vbd.Attached && vbd.Device != "") = true
        · rw [if_pos hready]
          have hr : outcomeIsReady (Except.ok vbd) = true := hready
          constructor
          · simp [pollerContract, List.find?_cons, hr]
          · rw [List.takeWhile_cons]
            simp [hr, ht]
        · rw [if_neg hready]
          exact hskip (by simpa [outcomeIsReady] using hready)

end PollerTheorems

section CapabilityTheorems
variable {σ : Type}

/-- C12. The function `isValidCapability` returns true exactly for a non-nil
capability whose access type is mount and whose access mode is
SINGLE_NODE_WRITER; it returns false for nil, for every block capability, for a
capability with no access type, for a missing access mode and for every other
access mode. -/
theorem isValidCapability_iff (c : Option VolumeCapability) :
    (isValidCapability c = true ↔
      ∃ fs flags, c = some ⟨some (AccessType.Mount fs flags),
        some AccessMode.SINGLE_NODE_WRITER⟩) ∧
    isValidCapability none = false ∧
    (∀ mode, isValidCapability (some ⟨some AccessType.Block, mode⟩) = false) ∧
    (∀ mode, isValidCapability (some ⟨none, mode⟩) = false) ∧
    (∀ ty, isValidCapability (some ⟨ty, none⟩) = false) ∧
    (∀ ty mode, mode ≠ AccessMode.SINGLE_NODE_WRITER →
      isValidCapability (some ⟨ty, some mode⟩) = false) := by
  refine ⟨?_, rfl, fun _ => rfl, fun _ => rfl, ?_, ?_⟩
  · constructor
    · intro h
      cases c with
      | none => cases h
      | some cap =>
        obtain ⟨ty, mode⟩ := cap
        cases ty with
        | none => cases h
        | some t =>
          cases t with
          | Block => cases h
          | Mount fs flags =>
            cases mode with
            | none => cases h
            | some m =>
              cases m <;> first | exact ⟨fs, flags, rfl⟩ | cases h
    · rintro ⟨fs, flags, rfl⟩
      rfl
  · intro ty
    cases ty with
    | none => rfl
    | some t => cases t <;> rfl
  · intro ty mode hm
    cases ty with
    | none => rfl
    | some t =>
      cases t with
      | Block => rfl
      | Mount fs flags =>
        cases mode <;> first | rfl | exact absurd rfl hm

/-- C13, the claim as stated fails. `NodeStageVolume` checks only that the
capability carries a mount access type: with a mount capability in
multi-node-multi-writer mode, which `isValidCapability` rejects, it succeeds and
queries, formats and mounts. -/
theorem NodeStageVolume_accepts_rejected_capability :
    isValidCapability exampleNodeStageMultiWriter.VolumeCapability = false ∧
    (NodeStageVolume mountTableMounter exampleNodeStageMultiWriter
        (World.init nothingMounted)).1 = Except.ok () ∧
    (NodeStageVolume mountTableMounter exampleNodeStageMultiWriter
        (World.init nothingMounted)).2.trace
      = [Call.GetDeviceNameFromMount "/stage/v1",
         Call.FormatAndMount "/dev/xvdb" "/stage/v1" "ext4" []] :=
  ⟨rfl, rfl, rfl⟩

/-- C13, amended. For every capability that `isValidCapability` rejects,
`ControllerPublishVolume` and `NodePublishVolume` fail with InvalidArgument and
invoke no hypervisor or mount-executor operation; `NodeStageVolume` does so when
the capability is missing or carries no mount access type. -/
theorem rejected_capability_is_InvalidArgument (cap : Option VolumeCapability)
    (hrej : isValidCapability cap = false)
    {τ : Type} (c : XoBackend σ) (sc : σ) (m : Mounter τ) (s : τ)
    (reqC : ControllerPublishVolumeRequest) (reqP : NodePublishVolumeRequest)
    (reqS : NodeStageVolumeRequest)
    (hC : reqC.VolumeCapability = cap) (hP : reqP.VolumeCapability = cap)
    (hS : reqS.VolumeCapability = cap) :
    ((∃ msg, (ControllerPublishVolume c reqC (World.init sc)).1
        = Except.error ⟨Code.InvalidArgument, msg⟩) ∧
      (ControllerPublishVolume c reqC (World.init sc)).2.trace = []) ∧
    ((∃ msg, (NodePublishVolume m reqP (World.init s)).1
        = Except.error ⟨Code.InvalidArgument, msg⟩) ∧
      (NodePublishVolume m reqP (World.init s)).2.trace = []) ∧
    ((cap = none ∨ ∃ volCap, cap = some volCap ∧ volCap.GetMount = none) →
      (∃ msg, (NodeStageVolume m reqS (World.init s)).1
        = Except.error ⟨Code.InvalidArgument, msg⟩) ∧
      (NodeStageVolume m reqS (World.init s)).2.trace = []) := by
  refine ⟨?_, ?_, ?_⟩
  · by_cases hn : (reqC.NodeId == "") = true
    · simp [ControllerPublishVolume, hn, World.init]
    · simp [ControllerPublishVolume, hn, hC, hrej, World.init]
  · cases cap with
    | none => simp [NodePublishVolume, hP, World.init]
    | some volCap =>
      have hv : isValidVolumeCapabilities [some volCap] = false := by
        simp [isValidVolumeCapabilities, hrej]
      simp [NodePublishVolume, hP, hv, World.init]
  · intro hmount
    by_cases h1 : reqS.VolumeId.length = 0
    · simp [NodeStageVolume, h1, World.init]
    by_cases h2 : reqS.StagingTargetPath.length = 0
    · simp [NodeStageVolume, h1, h2, World.init]
    rcases hmount with rfl | ⟨volCap, rfl, hm⟩
    · simp [NodeStageVolume, h1, h2, hS, World.init]
    · simp [NodeStageVolume, h1, h2, hS, hm, World.init]

/-- Witness of the amended C13: the block capability. -/
theorem rejected_capability_is_InvalidArgument_witness :
    (NodePublishVolume mountTableMounter
        ⟨"V1", [], "/stage/v1", "/pods/p1/v1", some blockCapability, false, []⟩
        (World.init stagedOnly)).2.trace = [] ∧
    (NodeStageVolume mountTableMounter
        ⟨"V1", [("device", "xvdb")], "/stage/v1", some blockCapability⟩
        (World.init stagedOnly)).2.trace = [] :=
  ⟨(rejected_capability_is_InvalidArgument (some blockCapability) rfl exampleBackend
      (exampleHypervisor []) mountTableMounter stagedOnly ⟨"V1", "N1", some blockCapability⟩
      ⟨"V1", [], "/stage/v1", "/pods/p1/v1", some blockCapability, false, []⟩
      ⟨"V1", [("device", "xvdb")], "/stage/v1", some blockCapability⟩ rfl rfl rfl).2.1.2,
   ((rejected_capability_is_InvalidArgument (some blockCapability) rfl exampleBackend
      (exampleHypervisor []) mountTableMounter stagedOnly ⟨"V1", "N1", some blockCapability⟩
      ⟨"V1", [], "/stage/v1", "/pods/p1/v1", some blockCapability, false, []⟩
      ⟨"V1", [("device", "xvdb")], "/stage/v1", some blockCapability⟩ rfl rfl rfl).2.2
      (Or.inr ⟨blockCapability, rfl, rfl⟩)).2⟩

end CapabilityTheorems

section UnpublishTheorems
variable {σ : Type}

/-- C14, the claim as stated fails. Volume `V1` has no attachment at all; the
listing succeeds, and `ControllerUnpublishVolume` for node `N1` answers with an
Internal error (it issues no disconnect). -/
theorem ControllerUnpublishVolume_missing_attachment_is_Internal :
    (exampleBackend.GetAllVBDs (exampleHypervisor [])).1 = Except.ok [] ∧
    (ControllerUnpublishVolume exampleBackend ⟨"V1", "N1"⟩
        (World.init (exampleHypervisor []))).1
      = Except.error ⟨Code.Internal,
          "Failed to detach VDI from VM: VBD not found for vdi=V1 and vm=N1"⟩ ∧
    (ControllerUnpublishVolume exampleBackend ⟨"V1", "N1"⟩
        (World.init (exampleHypervisor []))).2.trace = [Call.GetAllVBDs] :=
  ⟨rfl, rfl, rfl⟩

/-- C14, amended. For a `ControllerUnpublishVolume` request with non-empty node id
and volume id, if the attachment listing succeeds but holds no attachment for the
(volume, node) pair, the RPC fails with an Internal error, having made only the
listing query: it issues no disconnect. -/
theorem ControllerUnpublishVolume_missing_attachment (c : XoBackend σ)
    (req : ControllerUnpublishVolumeRequest) (s s1 : σ) (allVDBs : List VBD)
    (hnode : req.NodeId ≠ "") (hvol : req.VolumeId ≠ "")
    (hall : c.GetAllVBDs s = (Except.ok allVDBs, s1))
    (hmiss : ∀ v ∈ allVDBs, ¬ (v.VDI = req.VolumeId ∧ v.VmId = req.NodeId)) :
    (∃ msg, (ControllerUnpublishVolume c req (World.init s)).1
        = Except.error ⟨Code.Internal, msg⟩) ∧
    (ControllerUnpublishVolume c req (World.init s)).2.trace = [Call.GetAllVBDs] ∧
    (ControllerUnpublishVolume c req (World.init s)).2.trace.filter Call.isDisconnect = [] := by
  have hn2 : (req.NodeId == "") = false := by simpa using hnode
  have hv2 : (req.VolumeId == "") = false := by simpa using hvol
  have hfind : allVDBs.find? (fun vdb => vdb.VDI == req.VolumeId && vdb.VmId == req.NodeId)
      = none := by
    rw [List.find?_eq_none]
    intro v hv
    have := hmiss v hv
    simpa using this
  simp [ControllerUnpublishVolume, hn2, hv2, DisconnectVBDFromVM, GetVBDFromVDIAndVM,
    World.call, World.init, hall, hfind, Call.isDisconnect]

/-- Witness of the amended C14: volume `V1` has an attachment for `N2` only. -/
theorem ControllerUnpublishVolume_missing_attachment_witness :
    (ControllerUnpublishVolume exampleBackend ⟨"V1", "N1"⟩
        (World.init (exampleHypervisor [⟨"vbd-2", true, "xvdb", "V1", "N2"⟩]))).2.trace
      = [Call.GetAllVBDs] :=
  (ControllerUnpublishVolume_missing_attachment exampleBackend ⟨"V1", "N1"⟩
    (exampleHypervisor [⟨"vbd-2", true, "xvdb", "V1", "N2"⟩])
    (exampleHypervisor [⟨"vbd-2", true, "xvdb", "V1", "N2"⟩])
    [⟨"vbd-2", true, "xvdb", "V1", "N2"⟩] (by decide) (by decide) rfl (by decide)).2.1

theorem mountTableMounter_contract :
    UnmountContract mountTableMounter MountTable.pathExists MountTable.isMountPoint where
  absent := by
    intro target t h
    have hmem : target ∉ t.dirs := by
      simpa [MountTable.pathExists] using h
    simp [mountTableMounter, hmem]
  directory := by
    intro target t h _ _
    have hmem : target ∈ t.dirs := by
      simpa [MountTable.pathExists] using h
    simp [mountTableMounter, hmem, MountTable.pathExists]
  mounted := by
    intro target t h _ _
    have hmem : target ∈ t.dirs := by
      simpa [MountTable.pathExists] using h
    simp [mountTableMounter, hmem, MountTable.pathExists, MountTable.isMountPoint]

/-- C15. For a `NodeUnpublishVolume` request with non-empty volume id and target
path: the RPC makes exactly one collaborator call, `Unmount` on the target path
(no mount-state query before it), and succeeds exactly when that call returns no
error. Over a mount executor that satisfies the three-way `Unmount` contract, a
successful call leaves the target path absent, whichever of the three states it
started in, and a call on an already-absent path succeeds and changes nothing. -/
theorem NodeUnpublishVolume_converges (m : Mounter σ)
    (pathExists isMountPoint : String → σ → Bool)
    (hcontract : UnmountContract m pathExists isMountPoint)
    (req : NodeUnpublishVolumeRequest) (s : σ)
    (hvol : req.VolumeId ≠ "") (htarget : req.TargetPath ≠ "") :
    (NodeUnpublishVolume m req (World.init s)).2.trace = [Call.Unmount req.TargetPath] ∧
    ((NodeUnpublishVolume m req (World.init s)).1 = Except.ok () ↔
      (m.Unmount req.TargetPath s).1 = none) ∧
    ((NodeUnpublishVolume m req (World.init s)).1 = Except.ok () →
      pathExists req.TargetPath (NodeUnpublishVolume m req (World.init s)).2.st = false) ∧
    (pathExists req.TargetPath s = false →
      (NodeUnpublishVolume m req (World.init s)).1 = Except.ok () ∧
      (NodeUnpublishVolume m req (World.init s)).2.st = s) := by
  have hv : ¬ req.VolumeId.length = 0 := fun h => hvol ((length_eq_zero_iff_empty _).mp h)
  have ht : ¬ req.TargetPath.length = 0 := fun h => htarget ((length_eq_zero_iff_empty _).mp h)
  have hrun : NodeUnpublishVolume m req (World.init s)
      = (match (m.Unmount req.TargetPath s).1 with
          | some err => Except.error ⟨Code.Internal, "failed to unmount target path: " ++ err⟩
          | none => Except.ok (),
         ⟨(m.Unmount req.TargetPath s).2, [Call.Unmount req.TargetPath]⟩) := by
    simp only [NodeUnpublishVolume, hv, ht, if_false, World.call, World.init, List.nil_append]
    cases hu : m.Unmount req.TargetPath s with
    | mk e s1 => cases e <;> rfl
  rw [hrun]
  refine ⟨rfl, ?_, ?_, ?_⟩
  · cases hu : (m.Unmount req.TargetPath s).1 <;> simp
  · intro hok
    have hnone : (m.Unmount req.TargetPath s).1 = none := by
      cases hu : (m.Unmount req.TargetPath s).1 with
      | none => rfl
      | some e => rw [hu] at hok; cases hok
    show pathExists req.TargetPath (m.Unmount req.TargetPath s).2 = false
    cases hpe : pathExists req.TargetPath s with
    | false => rw [hcontract.absent _ _ hpe]; exact hpe
    | true =>
      cases hmp : isMountPoint req.TargetPath s with
      | false => exact hcontract.directory _ _ hpe hmp hnone
      | true => exact (hcontract.mounted _ _ hpe hmp hnone).1
  · intro hpe
    rw [hcontract.absent _ _ hpe]
    exact ⟨rfl, rfl⟩

/-- Witness of C15: unpublish of the bind-mounted target path of the example. -/
theorem NodeUnpublishVolume_converges_witness :
    (NodeUnpublishVolume mountTableMounter ⟨"V1", "/pods/p1/v1"⟩
        (World.init stagedAndPublished)).2.trace = [Call.Unmount "/pods/p1/v1"] ∧
    MountTable.pathExists "/pods/p1/v1"
      (NodeUnpublishVolume mountTableMounter ⟨"V1", "/pods/p1/v1"⟩
        (World.init stagedAndPublished)).2.st = false :=
  ⟨(NodeUnpublishVolume_converges mountTableMounter MountTable.pathExists
      MountTable.isMountPoint mountTableMounter_contract ⟨"V1", "/pods/p1/v1"⟩
      stagedAndPublished (by decide) (by decide)).1,
   (NodeUnpublishVolume_converges mountTableMounter MountTable.pathExists
      MountTable.isMountPoint mountTableMounter_contract ⟨"V1", "/pods/p1/v1"⟩
      stagedAndPublished (by decide) (by decide)).2.2.1 rfl⟩

end UnpublishTheorems

section SurfaceTheorems
variable {σ : Type}

/-- C16, evaluated on the code. The publish context written for an attachment has
the keys `device` and `vbd`; `NodeStageVolume` reads `device`, but the key that
`NodePublishVolume` reads, `deviceID`, is not among them, so its `deviceId` is
empty even for the context of an attachment with device `xvdb`. -/
theorem NodePublishVolume_reads_unwritten_key :
    (publishContextFromVBD ⟨"vbd-1", true, "xvdb", "V1", "N1"⟩).map Prod.fst
      = ["device", "vbd"] ∧
    GoMap.get (publishContextFromVBD ⟨"vbd-1", true, "xvdb", "V1", "N1"⟩) "device" = "xvdb" ∧
    GoMap.exists (publishContextFromVBD ⟨"vbd-1", true, "xvdb", "V1", "N1"⟩) "deviceID"
      = false ∧
    nodePublishDeviceId
      ⟨"V1", publishContextFromVBD ⟨"vbd-1", true, "xvdb", "V1", "N1"⟩, "/stage/v1",
        "/pods/p1/v1", some exampleCapability, false, []⟩ = "" :=
  ⟨rfl, rfl, rfl, rfl⟩

/-- C17. Each out-of-scope RPC answers every request with the Unimplemented
condition and leaves the world, state and trace, as it was: `CreateVolume`,
`DeleteVolume`, `ListVolumes`, `ListSnapshots`, `CreateSnapshot`, `DeleteSnapshot`,
`GetCapacity`, `ControllerExpandVolume`, `ValidateVolumeCapabilities`,
`NodeGetVolumeStats` and `NodeExpandVolume`. -/
theorem out_of_scope_RPCs_Unimplemented {ρ : Type} (req : ρ) (w : World σ) :
    AnswersUnimplemented (CreateVolume req w) w ∧
    AnswersUnimplemented (DeleteVolume req w) w ∧
    AnswersUnimplemented (ListVolumes req w) w ∧
    AnswersUnimplemented (ListSnapshots req w) w ∧
    AnswersUnimplemented (CreateSnapshot req w) w ∧
    AnswersUnimplemented (DeleteSnapshot req w) w ∧
    AnswersUnimplemented (GetCapacity req w) w ∧
    AnswersUnimplemented (ControllerExpandVolume req w) w ∧
    AnswersUnimplemented (ValidateVolumeCapabilities req w) w ∧
    AnswersUnimplemented (NodeGetVolumeStats req w) w ∧
    AnswersUnimplemented (NodeExpandVolume req w) w :=
  ⟨⟨⟨_, rfl⟩, rfl⟩, ⟨⟨_, rfl⟩, rfl⟩, ⟨⟨_, rfl⟩, rfl⟩, ⟨⟨_, rfl⟩, rfl⟩, ⟨⟨_, rfl⟩, rfl⟩,
   ⟨⟨_, rfl⟩, rfl⟩, ⟨⟨_, rfl⟩, rfl⟩, ⟨⟨_, rfl⟩, rfl⟩, ⟨⟨_, rfl⟩, rfl⟩, ⟨⟨_, rfl⟩, rfl⟩,
   ⟨⟨_, rfl⟩, rfl⟩⟩

/-- C18, evaluated on the code. `ControllerGetCapabilities` advertises the
get-volume capability, and `ControllerGetVolume` answers with the Unimplemented
condition. -/
theorem ControllerGetVolume_advertised_but_Unimplemented :
    ControllerRPCType.GET_VOLUME ∈ ControllerGetCapabilities () ∧
    (ControllerGetVolume () (World.init (exampleHypervisor []))).1
      = Except.error ⟨Code.Unimplemented, "ControllerGetVolume is not implemented"⟩ :=
  ⟨by decide, rfl⟩

/-- The source path `NodePublishVolume` resolves, when it is not empty: the staging
path, or the volume-context entry `diskMount` when the staging path is empty. -/
theorem sourcePath_resolved (st : String) (attrib : GoMap)
    (h : ¬ (if st = "" then (if attrib.exists "diskMount" = true then attrib.get "diskMount"
            else st) else st) = "") :
    (if st = "" then (if attrib.exists "diskMount" = true then attrib.get "diskMount" else st)
      else st)
      = (if st = "" then attrib.get "diskMount" else st) := by
  by_cases hst : st = ""
  · subst hst
    by_cases hex : GoMap.exists attrib "diskMount" = true
    · simp [hex]
    · simp [hex] at h
  · simp [hst]

/-- The call trace of `NodePublishVolume` from the empty trace is empty, or the call
of `MkdirAll`, or that followed by `IsMountPoint`, or these two followed by one call
of `Mount` with the arguments the handler computed. -/
theorem NodePublishVolume_trace (m : Mounter σ) (req : NodePublishVolumeRequest) (s : σ) :
    (NodePublishVolume m req (World.init s)).2.trace = [] ∨
    (NodePublishVolume m req (World.init s)).2.trace = [Call.MkdirAll req.TargetPath] ∨
    (NodePublishVolume m req (World.init s)).2.trace
      = [Call.MkdirAll req.TargetPath, Call.IsMountPoint req.TargetPath] ∨
    ∃ volCap cfs flags, req.VolumeCapability = some volCap ∧
      volCap.GetMount = some (cfs, flags) ∧
      (NodePublishVolume m req (World.init s)).2.trace
        = [Call.MkdirAll req.TargetPath, Call.IsMountPoint req.TargetPath,
           Call.Mount
             (if req.StagingTargetPath = "" then req.VolumeContext.get "diskMount"
               else req.StagingTargetPath)
             req.TargetPath (if cfs = "" then "ext4" else cfs)
             (if req.Readonly = true then ["ro", "bind"] else ["bind"])] := by
  rcases hcap : req.VolumeCapability with _ | volCap
  · left; simp [NodePublishVolume, hcap, World.init]
  by_cases hv : isValidVolumeCapabilities [some volCap] = true
  swap
  · left; simp [NodePublishVolume, hcap, hv, World.init]
  by_cases hid : req.VolumeId.length = 0
  · left; simp [NodePublishVolume, hcap, hv, hid, World.init]
  by_cases htp : req.TargetPath.length = 0
  · left; simp [NodePublishVolume, hcap, hv, hid, htp, World.init]
  by_cases hsp : (if req.StagingTargetPath = "" then
      (if req.VolumeContext.exists "diskMount" = true then req.VolumeContext.get "diskMount"
        else req.StagingTargetPath) else req.StagingTargetPath) = ""
  · left; simp [NodePublishVolume, hcap, hv, hid, htp, hsp, World.init]
  have hsrc := sourcePath_resolved req.StagingTargetPath req.VolumeContext hsp
  have hsp2 : ¬ (if req.StagingTargetPath = "" then req.VolumeContext.get "diskMount"
      else req.StagingTargetPath) = "" := hsrc ▸ hsp
  by_cases htp2 : req.TargetPath = ""
  · left; simp [NodePublishVolume, hcap, hv, hid, htp, hsp, htp2, World.init]
  rcases hgm : volCap.GetMount with _ | ⟨cfs, flags⟩
  · left; simp [NodePublishVolume, hcap, hv, hid, htp, hsp, htp2, hgm, World.init]
  rcases hmk : m.MkdirAll req.TargetPath s with ⟨_ | err, s1⟩
  swap
  · right; left
    simp [NodePublishVolume, hcap, hv, hid, htp, hsp, htp2, hgm, hmk, World.init, World.call]
  rcases him : m.IsMountPoint req.TargetPath s1 with ⟨err | notMnt, s2⟩
  · right; right; left
    simp [NodePublishVolume, hcap, hv, hid, htp, hsp, htp2, hgm, hmk, him, World.init,
      World.call]
  cases notMnt
  · right; right; left
    simp [NodePublishVolume, hcap, hv, hid, htp, hsp, htp2, hgm, hmk, him, World.init,
      World.call]
  right; right; right
  refine ⟨volCap, cfs, flags, rfl, hgm, ?_⟩
  rcases hmt : m.Mount (if req.StagingTargetPath = "" then req.VolumeContext.get "diskMount"
      else req.StagingTargetPath) req.TargetPath (if cfs = "" then "ext4" else cfs)
      (if req.Readonly = true then ["ro", "bind"] else ["bind"]) s2 with ⟨_ | err, s3⟩ <;>
  · simp only [NodePublishVolume, hcap]
    cases hro : req.Readonly <;>
      simp [hv, hid, htp, hsp2, htp2, hgm, hmk, him, hsrc, hro, World.init, World.call,
        DefaultFsType] at hmt ⊢ <;> simp [hmt]

/-- C19. Whenever the call trace of `NodePublishVolume` holds a call of `Mount`, the
request carries a mount capability and the arguments of the call are: the staging
path if it is not empty and the volume-context entry `diskMount` otherwise; the
target path of the request; the filesystem type of the capability, or `ext4` when it
is empty; the options `ro`, `bind` for a read-only request and `bind` alone
otherwise. The options hold `bind`, hold `ro` exactly for a read-only request, and
hold nothing else: no mount flag of the capability is copied into them. -/
theorem NodePublishVolume_Mount_arguments (m : Mounter σ) (req : NodePublishVolumeRequest)
    (s : σ) (src tgt fs : String) (opts : List String)
    (h : Call.Mount src tgt fs opts ∈ (NodePublishVolume m req (World.init s)).2.trace) :
    ∃ volCap cfs flags, req.VolumeCapability = some volCap ∧
      volCap.GetMount = some (cfs, flags) ∧
      src = (if req.StagingTargetPath = "" then req.VolumeContext.get "diskMount"
              else req.StagingTargetPath) ∧
      tgt = req.TargetPath ∧
      fs = (if cfs = "" then "ext4" else cfs) ∧
      opts = (if req.Readonly = true then ["ro", "bind"] else ["bind"]) ∧
      "bind" ∈ opts ∧ ("ro" ∈ opts ↔ req.Readonly = true) ∧
      (∀ o ∈ opts, o = "ro" ∨ o = "bind") ∧
      (∀ f ∈ flags, f ≠ "ro" → f ≠ "bind" → f ∉ opts) := by
  rcases NodePublishVolume_trace m req s with h0 | h0 | h0 | ⟨volCap, cfs, flags, hcap, hgm, h0⟩
  · rw [h0] at h; simp at h
  · rw [h0] at h; simp at h
  · rw [h0] at h; simp at h
  · rw [h0] at h
    simp only [List.mem_cons, List.mem_singleton, List.not_mem_nil, or_false, reduceCtorEq,
      false_or, Call.Mount.injEq] at h
    obtain ⟨h1, h2, h3, h4⟩ := h
    refine ⟨volCap, cfs, flags, hcap, hgm, h1, h2, h3, h4, ?_, ?_, ?_, ?_⟩
    · rw [h4]; cases req.Readonly <;> simp
    · rw [h4]; cases req.Readonly <;> simp
    · rw [h4]; cases req.Readonly <;> simp
    · intro f _ hro hbind
      rw [h4]; cases req.Readonly <;> simp [hro, hbind]

/-- Witness of C19: a read-only publish from the volume-context source, on a target
that `IsMountPoint` reports as a mount point. -/
theorem NodePublishVolume_Mount_arguments_witness :
    (NodePublishVolume mountTableMounter exampleNodePublishReadonly
        (World.init stagedAndPublished)).2.trace
      = [Call.MkdirAll "/pods/p1/v1", Call.IsMountPoint "/pods/p1/v1",
         Call.Mount "/mnt/disk" "/pods/p1/v1" "xfs" ["ro", "bind"]] ∧
    ∃ volCap cfs flags, exampleNodePublishReadonly.VolumeCapability = some volCap ∧
      volCap.GetMount = some (cfs, flags) ∧
      "/mnt/disk" = (if exampleNodePublishReadonly.StagingTargetPath = ""
              then exampleNodePublishReadonly.VolumeContext.get "diskMount"
              else exampleNodePublishReadonly.StagingTargetPath) ∧
      "/pods/p1/v1" = exampleNodePublishReadonly.TargetPath ∧
      "xfs" = (if cfs = "" then "ext4" else cfs) ∧
      ["ro", "bind"] = (if exampleNodePublishReadonly.Readonly = true then ["ro", "bind"]
              else ["bind"]) ∧
      "bind" ∈ ["ro", "bind"] ∧
      ("ro" ∈ ["ro", "bind"] ↔ exampleNodePublishReadonly.Readonly = true) ∧
      (∀ o ∈ ["ro", "bind"], o = "ro" ∨ o = "bind") ∧
      (∀ f ∈ flags, f ≠ "ro" → f ≠ "bind" → f ∉ ["ro", "bind"]) :=
  ⟨rfl, NodePublishVolume_Mount_arguments mountTableMounter exampleNodePublishReadonly
    stagedAndPublished "/mnt/disk" "/pods/p1/v1" "xfs" ["ro", "bind"]
    ((show (NodePublishVolume mountTableMounter exampleNodePublishReadonly
        (World.init stagedAndPublished)).2.trace
      = [Call.MkdirAll "/pods/p1/v1", Call.IsMountPoint "/pods/p1/v1",
         Call.Mount "/mnt/disk" "/pods/p1/v1" "xfs" ["ro", "bind"]] from rfl) ▸ by simp)⟩

/-- C20, evaluated on the code. A request with both a staging path and a
volume-context entry `diskMount`, otherwise valid, is not rejected: it succeeds, and
where the handler goes on to mount, the source is the staging path. -/
theorem NodePublishVolume_accepts_both_sources :
    exampleNodePublishBothSources.StagingTargetPath = "/stage/v1" ∧
    exampleNodePublishBothSources.VolumeContext.get "diskMount" = "/mnt/disk" ∧
    (NodePublishVolume mountTableMounter exampleNodePublishBothSources
        (World.init stagedOnly)).1 = Except.ok () ∧
    (NodePublishVolume mountTableMounter exampleNodePublishBothSources
        (World.init stagedAndPublished)).1 = Except.ok () ∧
    (NodePublishVolume mountTableMounter exampleNodePublishBothSources
        (World.init stagedAndPublished)).2.trace
      = [Call.MkdirAll "/pods/p1/v1", Call.IsMountPoint "/pods/p1/v1",
         Call.Mount "/stage/v1" "/pods/p1/v1" "ext4" ["bind"]] :=
  ⟨rfl, rfl, rfl, rfl, rfl⟩

/-- A capability that passes `isValidVolumeCapabilities` carries a mount payload. -/
theorem GetMount_of_valid (volCap : VolumeCapability)
    (hv : isValidVolumeCapabilities [some volCap] = true) :
    ∃ cfs flags, volCap.GetMount = some (cfs, flags) := by
  rcases volCap with ⟨_ | _ | ⟨fs, flags⟩, mode⟩
  · simp [isValidVolumeCapabilities, isValidCapability] at hv
  · simp [isValidVolumeCapabilities, isValidCapability] at hv
  · exact ⟨fs, flags, rfl⟩

/-- C20, amended. A `NodePublishVolume` request with a valid capability, a volume id
and a target path fails with InvalidArgument exactly when neither the staging path
nor the volume-context entry `diskMount` is non-empty, and it then invokes no
operation of the mount executor. With a non-empty staging path the request is
accepted whatever the volume context holds, and the staging path is the source of
any `Mount` the handler invokes. -/
theorem NodePublishVolume_source_required (m : Mounter σ) (req : NodePublishVolumeRequest)
    (s : σ) (volCap : VolumeCapability) (hcap : req.VolumeCapability = some volCap)
    (hv : isValidVolumeCapabilities [some volCap] = true)
    (hid : req.VolumeId ≠ "") (htp : req.TargetPath ≠ "") :
    ((∃ msg, (NodePublishVolume m req (World.init s)).1
        = Except.error ⟨Code.InvalidArgument, msg⟩) ↔
      (req.StagingTargetPath = "" ∧ req.VolumeContext.get "diskMount" = "")) ∧
    (req.StagingTargetPath = "" ∧ req.VolumeContext.get "diskMount" = "" →
      (NodePublishVolume m req (World.init s)).2.trace = []) ∧
    (req.StagingTargetPath ≠ "" → ∀ src tgt fs opts,
      Call.Mount src tgt fs opts ∈ (NodePublishVolume m req (World.init s)).2.trace →
      src = req.StagingTargetPath) := by
  have hid2 : ¬ req.VolumeId.length = 0 := fun h => hid ((length_eq_zero_iff_empty _).mp h)
  have htp2 : ¬ req.TargetPath.length = 0 := fun h => htp ((length_eq_zero_iff_empty _).mp h)
  obtain ⟨cfs, flags, hgm⟩ := GetMount_of_valid volCap hv
  have hempty : req.StagingTargetPath = "" ∧ req.VolumeContext.get "diskMount" = "" →
      (NodePublishVolume m req (World.init s)).1
        = Except.error ⟨Code.InvalidArgument,
            "source path is required in volume context or staging target path"⟩ ∧
      (NodePublishVolume m req (World.init s)).2.trace = [] := by
    rintro ⟨h1, h2⟩
    simp [NodePublishVolume, hcap, hv, hid2, htp2, h1, h2, World.init]
  refine ⟨⟨?_, fun h => ⟨_, (hempty h).1⟩⟩, fun h => (hempty h).2, ?_⟩
  · rintro ⟨msg, hmsg⟩
    by_contra hne
    have hsp : ¬ (if req.StagingTargetPath = "" then
        (if req.VolumeContext.exists "diskMount" = true then req.VolumeContext.get "diskMount"
          else req.StagingTargetPath) else req.StagingTargetPath) = "" := by
      by_cases hst : req.StagingTargetPath = ""
      · have hg : ¬ req.VolumeContext.get "diskMount" = "" := fun h => hne ⟨hst, h⟩
        have hex : req.VolumeContext.exists "diskMount" = true := by
          by_contra hex
          apply hg
          simp only [GoMap.exists, Option.isSome_iff_exists, not_exists] at hex
          cases hl : List.lookup "diskMount" req.VolumeContext with
          | none => simp [GoMap.get, hl]
          | some v => exact absurd hl (hex v)
        simp [hst, hex, hg]
      · simp [hst]
    rcases hmk : m.MkdirAll req.TargetPath s with ⟨_ | err, s1⟩
    swap
    · simp [NodePublishVolume, hcap, hv, hid2, htp2, hsp, htp, hgm, hmk, World.init,
        World.call] at hmsg
    rcases him : m.IsMountPoint req.TargetPath s1 with ⟨err | notMnt, s2⟩
    · simp [NodePublishVolume, hcap, hv, hid2, htp2, hsp, htp, hgm, hmk, him, World.init,
        World.call] at hmsg
    cases notMnt
    · simp [NodePublishVolume, hcap, hv, hid2, htp2, hsp, htp, hgm, hmk, him, World.init,
        World.call] at hmsg
    simp only [NodePublishVolume, hcap] at hmsg
    simp [hv, hid2, htp2, hsp, htp, hgm, hmk, him, World.init, World.call] at hmsg
    split at hmsg <;> simp at hmsg
  · intro hst src tgt fs opts hmem
    rcases NodePublishVolume_trace m req s with h0 | h0 | h0 | ⟨_, _, _, _, _, h0⟩
    · rw [h0] at hmem; simp at hmem
    · rw [h0] at hmem; simp at hmem
    · rw [h0] at hmem; simp at hmem
    · rw [h0] at hmem
      simp only [List.mem_cons, List.mem_singleton, List.not_mem_nil, or_false, reduceCtorEq,
        false_or, Call.Mount.injEq] at hmem
      rw [hmem.1, if_neg hst]

/-- Witness of the amended C20: the request with no source fails before any call, and
the request with both sources is not rejected. -/
theorem NodePublishVolume_source_required_witness :
    (isValidVolumeCapabilities [some exampleCapability] = true ∧
      exampleNodePublishNoSource.VolumeId ≠ "" ∧ exampleNodePublishNoSource.TargetPath ≠ "" ∧
      exampleNodePublishBothSources.VolumeId ≠ "" ∧
      exampleNodePublishBothSources.TargetPath ≠ "") ∧
    (NodePublishVolume mountTableMounter exampleNodePublishNoSource
        (World.init stagedOnly)).2.trace = [] ∧
    ¬ (∃ msg, (NodePublishVolume mountTableMounter exampleNodePublishBothSources
        (World.init stagedAndPublished)).1 = Except.error ⟨Code.InvalidArgument, msg⟩) :=
  ⟨⟨rfl, by decide, by decide, by decide, by decide⟩,
   (NodePublishVolume_source_required mountTableMounter exampleNodePublishNoSource stagedOnly
      exampleCapability rfl rfl (by decide) (by decide)).2.1 ⟨rfl, rfl⟩,
   fun h => absurd ((NodePublishVolume_source_required mountTableMounter
      exampleNodePublishBothSources stagedAndPublished exampleCapability rfl rfl (by decide)
      (by decide)).1.mp h).1 (by decide)⟩

end SurfaceTheorems

section FailureTheorems
variable {σ : Type}

/-- C21. A request that lacks a required field is answered with InvalidArgument and
the world is left as it was, so no hypervisor call, mount-executor call or directory
creation is made: `ControllerPublishVolume` and `ControllerUnpublishVolume` with an
empty node id or volume id; `NodeStageVolume` with an empty volume id or staging
path, no capability, or no non-empty `device` entry in the publish context;
`NodeUnstageVolume` with an empty volume id or staging path; `NodePublishVolume` with
no capability or an empty volume id or target path; `NodeUnpublishVolume` with an
empty volume id or target path. -/
theorem missing_fields_are_InvalidArgument {τ : Type} (c : XoBackend σ) (m : Mounter τ)
    (wc : World σ) (wm : World τ) :
    (∀ req : ControllerPublishVolumeRequest, req.NodeId = "" ∨ req.VolumeId = "" →
      AnswersInvalidArgument (ControllerPublishVolume c req wc) wc) ∧
    (∀ req : ControllerUnpublishVolumeRequest, req.NodeId = "" ∨ req.VolumeId = "" →
      AnswersInvalidArgument (ControllerUnpublishVolume c req wc) wc) ∧
    (∀ req : NodeStageVolumeRequest,
      req.VolumeId = "" ∨ req.StagingTargetPath = "" ∨ req.VolumeCapability = none ∨
        req.PublishContext.get "device" = "" →
      AnswersInvalidArgument (NodeStageVolume m req wm) wm) ∧
    (∀ req : NodeUnstageVolumeRequest, req.VolumeId = "" ∨ req.StagingTargetPath = "" →
      AnswersInvalidArgument (NodeUnstageVolume m req wm) wm) ∧
    (∀ req : NodePublishVolumeRequest,
      req.VolumeCapability = none ∨ req.VolumeId = "" ∨ req.TargetPath = "" →
      AnswersInvalidArgument (NodePublishVolume m req wm) wm) ∧
    (∀ req : NodeUnpublishVolumeRequest, req.VolumeId = "" ∨ req.TargetPath = "" →
      AnswersInvalidArgument (NodeUnpublishVolume m req wm) wm) := by
  refine ⟨?_, ?_, ?_, ?_, ?_, ?_⟩
  · intro req h
    by_cases hn : req.NodeId = ""
    · simp [AnswersInvalidArgument, ControllerPublishVolume, hn]
    by_cases hc : isValidCapability req.VolumeCapability = true
    · have hv : req.VolumeId = "" := h.resolve_left hn
      simp [AnswersInvalidArgument, ControllerPublishVolume, hn, hc, hv]
    · simp [AnswersInvalidArgument, ControllerPublishVolume, hn, hc]
  · intro req h
    by_cases hn : req.NodeId = ""
    · simp [AnswersInvalidArgument, ControllerUnpublishVolume, hn]
    · have hv : req.VolumeId = "" := h.resolve_left hn
      simp [AnswersInvalidArgument, ControllerUnpublishVolume, hn, hv]
  · intro req h
    by_cases h1 : req.VolumeId.length = 0
    · simp [AnswersInvalidArgument, NodeStageVolume, h1]
    by_cases h2 : req.StagingTargetPath.length = 0
    · simp [AnswersInvalidArgument, NodeStageVolume, h1, h2]
    rcases hcap : req.VolumeCapability with _ | volCap
    · simp [AnswersInvalidArgument, NodeStageVolume, h1, h2, hcap]
    rcases hgm : volCap.GetMount with _ | mount
    · simp [AnswersInvalidArgument, NodeStageVolume, h1, h2, hcap, hgm]
    have hd : req.PublishContext.get "device" = "" := by
      rcases h with h | h | h | h
      · exact absurd ((length_eq_zero_iff_empty _).mpr h) h1
      · exact absurd ((length_eq_zero_iff_empty _).mpr h) h2
      · rw [hcap] at h; cases h
      · exact h
    simp [AnswersInvalidArgument, NodeStageVolume, h1, h2, hcap, hgm, hd]
  · intro req h
    by_cases h1 : req.VolumeId.length = 0
    · simp [AnswersInvalidArgument, NodeUnstageVolume, h1]
    · have h2 : req.StagingTargetPath.length = 0 :=
        (length_eq_zero_iff_empty _).mpr
          (h.resolve_left (fun e => h1 ((length_eq_zero_iff_empty _).mpr e)))
      simp [AnswersInvalidArgument, NodeUnstageVolume, h1, h2]
  · intro req h
    rcases hcap : req.VolumeCapability with _ | volCap
    · simp [AnswersInvalidArgument, NodePublishVolume, hcap]
    by_cases hv : isValidVolumeCapabilities [some volCap] = true
    swap
    · simp [AnswersInvalidArgument, NodePublishVolume, hcap, hv]
    by_cases h1 : req.VolumeId.length = 0
    · simp [AnswersInvalidArgument, NodePublishVolume, hcap, hv, h1]
    have h2 : req.TargetPath.length = 0 := by
      rcases h with h | h | h
      · rw [hcap] at h; cases h
      · exact absurd ((length_eq_zero_iff_empty _).mpr h) h1
      · exact (length_eq_zero_iff_empty _).mpr h
    simp [AnswersInvalidArgument, NodePublishVolume, hcap, hv, h1, h2]
  · intro req h
    by_cases h1 : req.VolumeId.length = 0
    · simp [AnswersInvalidArgument, NodeUnpublishVolume, h1]
    · have h2 : req.TargetPath.length = 0 :=
        (length_eq_zero_iff_empty _).mpr
          (h.resolve_left (fun e => h1 ((length_eq_zero_iff_empty _).mpr e)))
      simp [AnswersInvalidArgument, NodeUnpublishVolume, h1, h2]

/-- Witness of C21: a cluster-level publish with an empty volume id, and a stage
request whose publish context has no `device` entry. -/
theorem missing_fields_are_InvalidArgument_witness :
    AnswersInvalidArgument
      (ControllerPublishVolume exampleBackend ⟨"", "N1", some exampleCapability⟩
        (World.init (exampleHypervisor [])))
      (World.init (exampleHypervisor [])) ∧
    AnswersInvalidArgument
      (NodeStageVolume mountTableMounter ⟨"V1", [("vbd", "vbd-1")], "/stage/v1",
        some exampleCapability⟩ (World.init stagedOnly))
      (World.init stagedOnly) :=
  ⟨(missing_fields_are_InvalidArgument exampleBackend mountTableMounter
      (World.init (exampleHypervisor [])) (World.init stagedOnly)).1
      ⟨"", "N1", some exampleCapability⟩ (Or.inr rfl),
   (missing_fields_are_InvalidArgument exampleBackend mountTableMounter
      (World.init (exampleHypervisor [])) (World.init stagedOnly)).2.2.1
      ⟨"V1", [("vbd", "vbd-1")], "/stage/v1", some exampleCapability⟩
      (Or.inr (Or.inr (Or.inr rfl)))⟩

end FailureTheorems

section AdapterTheorems
variable {σ : Type}

/-- C23. When the listing of the VBD objects succeeds, `IsVDIUsedAnywhere` makes that
one call and returns exactly the listed attachments of the given volume: every
returned attachment is listed and has the VDI of the volume, every listed attachment
with that VDI is returned, as often as it is listed and in listing order, and the
result is empty exactly when no listed attachment references the volume. -/
theorem IsVDIUsedAnywhere_exact (c : XoBackend σ) (vdi : VDI) (w : World σ)
    (allVDBs : List VBD) (s1 : σ) (h : c.GetAllVBDs w.st = (Except.ok allVDBs, s1)) :
    ∃ vbds, IsVDIUsedAnywhere c vdi w
        = (Except.ok vbds, ⟨s1, w.trace ++ [Call.GetAllVBDs]⟩) ∧
      (∀ v ∈ vbds, v.VDI = vdi.VDIId ∧ v ∈ allVDBs) ∧
      (∀ v ∈ allVDBs, v.VDI = vdi.VDIId → v ∈ vbds) ∧
      (∀ v, v.VDI = vdi.VDIId → vbds.count v = allVDBs.count v) ∧
      vbds.Sublist allVDBs ∧
      vbds.length = allVDBs.countP (fun v => v.VDI == vdi.VDIId) ∧
      (vbds = [] ↔ ∀ v ∈ allVDBs, v.VDI ≠ vdi.VDIId) := by
  refine ⟨allVDBs.filter (fun vdb => vdb.VDI == vdi.VDIId), ?_, ?_, ?_, ?_, ?_, ?_, ?_⟩
  · simp [IsVDIUsedAnywhere, World.call, h]
  · intro v hv
    rw [List.mem_filter] at hv
    exact ⟨by simpa using hv.2, hv.1⟩
  · intro v hv hvdi
    rw [List.mem_filter]
    exact ⟨hv, by simpa using hvdi⟩
  · intro v hvdi
    exact List.count_filter (by simpa using hvdi)
  · exact List.filter_sublist allVDBs
  · rw [List.countP_eq_length_filter]
  · rw [List.filter_eq_nil_iff]
    simp

/-- Witness of C23: two listed attachments, one of volume `V1` and one of `V2`. -/
theorem IsVDIUsedAnywhere_exact_witness :
    exampleBackend.GetAllVBDs
        (World.init (exampleHypervisor
          [⟨"vbd-1", true, "xvdb", "V1", "N1"⟩, ⟨"vbd-2", true, "xvdc", "V2", "N1"⟩])).st
      = (Except.ok [⟨"vbd-1", true, "xvdb", "V1", "N1"⟩, ⟨"vbd-2", true, "xvdc", "V2", "N1"⟩],
         exampleHypervisor
          [⟨"vbd-1", true, "xvdb", "V1", "N1"⟩, ⟨"vbd-2", true, "xvdc", "V2", "N1"⟩]) ∧
    (IsVDIUsedAnywhere exampleBackend ⟨"V1", "P1"⟩
        (World.init (exampleHypervisor
          [⟨"vbd-1", true, "xvdb", "V1", "N1"⟩, ⟨"vbd-2", true, "xvdc", "V2", "N1"⟩]))).1
      = Except.ok [⟨"vbd-1", true, "xvdb", "V1", "N1"⟩] ∧
    ∃ vbds, IsVDIUsedAnywhere exampleBackend ⟨"V1", "P1"⟩
        (World.init (exampleHypervisor
          [⟨"vbd-1", true, "xvdb", "V1", "N1"⟩, ⟨"vbd-2", true, "xvdc", "V2", "N1"⟩]))
        = (Except.ok vbds,
           ⟨exampleHypervisor
              [⟨"vbd-1", true, "xvdb", "V1", "N1"⟩, ⟨"vbd-2", true, "xvdc", "V2", "N1"⟩],
            [Call.GetAllVBDs]⟩) ∧
      vbds.length = 1 :=
  ⟨rfl, rfl,
   (IsVDIUsedAnywhere_exact exampleBackend ⟨"V1", "P1"⟩
      (World.init (exampleHypervisor
        [⟨"vbd-1", true, "xvdb", "V1", "N1"⟩, ⟨"vbd-2", true, "xvdc", "V2", "N1"⟩]))
      [⟨"vbd-1", true, "xvdb", "V1", "N1"⟩, ⟨"vbd-2", true, "xvdc", "V2", "N1"⟩]
      _ rfl).imp (fun _ hv => ⟨hv.1, hv.2.2.2.2.2.1⟩)⟩

/-- A VBD that the poller loop returns is connected and has a device name. -/
theorem waitLoop_ok_ready (c : XoBackend σ) (vdi : VDI) (vm : String) (n : Nat) (w : World σ)
    (vbd : VBD) (h : (waitLoop c vdi vm n w).1 = Except.ok vbd) :
    vbd.Attached = true ∧ vbd.Device ≠ "" := by
  induction n generalizing w with
  | zero => simp [waitLoop] at h
  | succ n ih =>
    unfold waitLoop at h
    cases hq : GetVBDFromVDIAndVM c vdi vm w with
    | mk r w1 =>
      rw [hq] at h
      cases r with
      | error e => exact ih w1 h
      | ok v =>
        simp only at h
        by_cases hready : (v.Attached && v.Device != "") = true
        · rw [if_pos hready] at h
          simp only [Except.ok.injEq] at h
          subst h
          simpa using hready
        · rw [if_neg hready] at h
          exact ih w1 h

/-- The poller loop with `n` ticks left makes `k ≤ n` queries, one per tick; a result
is handed back at a tick, and the only error is the timeout, after all `n` ticks. -/
theorem waitLoop_outcome (c : XoBackend σ) (vdi : VDI) (vm : String) (n : Nat) (w : World σ) :
    ∃ k, k ≤ n ∧
      (waitLoop c vdi vm n w).2.trace = w.trace ++ List.replicate k Call.GetAllVBDs ∧
      (∀ vbd, (waitLoop c vdi vm n w).1 = Except.ok vbd → 1 ≤ k) ∧
      (∀ err, (waitLoop c vdi vm n w).1 = Except.error err →
        err = "timed out waiting for VDI " ++ vdi.VDIId ++ " to be attached to VM " ++ vm ∧
        k = n) := by
  induction n generalizing w with
  | zero => exact ⟨0, le_refl _, by simp [waitLoop], by simp [waitLoop], by simp [waitLoop]⟩
  | succ n ih =>
    have ht := GetVBDFromVDIAndVM_trace c vdi vm w
    unfold waitLoop
    cases hq : GetVBDFromVDIAndVM c vdi vm w with
    | mk r w1 =>
      rw [hq] at ht
      simp only at ht
      have step : ∃ k, k ≤ n + 1 ∧
          (waitLoop c vdi vm n w1).2.trace = w.trace ++ List.replicate k Call.GetAllVBDs ∧
          (∀ vbd, (waitLoop c vdi vm n w1).1 = Except.ok vbd → 1 ≤ k) ∧
          (∀ err, (waitLoop c vdi vm n w1).1 = Except.error err →
            err = "timed out waiting for VDI " ++ vdi.VDIId ++ " to be attached to VM " ++ vm ∧
            k = n + 1) := by
        obtain ⟨k, hk, hk2, _, hk4⟩ := ih w1
        refine ⟨k + 1, by omega, ?_, fun _ _ => by omega, ?_⟩
        · rw [hk2, ht, List.replicate_succ, List.append_assoc]
          rfl
        · intro err he
          exact ⟨(hk4 err he).1, by rw [(hk4 err he).2]⟩
      cases r with
      | error e => exact step
      | ok vbd =>
        simp only
        by_cases hready : (vbd.Attached && vbd.Device != "") = true
        · rw [if_pos hready]
          exact ⟨1, by omega, by simpa using ht, fun _ _ => le_refl _, by simp⟩
        · rw [if_neg hready]
          exact step

set_option maxRecDepth 8192

/-- C24, evaluated on the code. The doc comment of `WaitForVDIToBeFullyAttached` says
that it polls every 500 ms, which fits 239 ticks before the two-minute timeout; the
ticker of the code has a period of one second. Where the attachment never shows up
and every tick before the timeout is received, the poller makes 119 queries, one per
second, and reports the timeout. -/
theorem WaitForVDIToBeFullyAttached_period_is_one_second :
    documentedPollIntervalMs = 500 ∧ pollIntervalSeconds * 1000 = 1000 ∧
    pollTimeoutSeconds * 1000 = 120000 ∧
    ticksBefore (pollTimeoutSeconds * 1000) documentedPollIntervalMs = 239 ∧
    ticksBefore (pollTimeoutSeconds * 1000) (pollIntervalSeconds * 1000) = 119 ∧
    timelyBackend.pollTicks = 119 ∧
    (WaitForVDIToBeFullyAttached timelyBackend ⟨"V1", "P1"⟩ "N1"
        (World.init (exampleHypervisor []))).1
      = Except.error "timed out waiting for VDI V1 to be attached to VM N1" ∧
    (WaitForVDIToBeFullyAttached timelyBackend ⟨"V1", "P1"⟩ "N1"
        (World.init (exampleHypervisor []))).2.trace
      = List.replicate 119 Call.GetAllVBDs :=
  ⟨rfl, rfl, rfl, rfl, rfl, rfl, rfl, rfl⟩

end AdapterTheorems

section PublishShape
variable {σ : Type}

/-- A run of `ControllerPublishVolume` either ends in an error within its first three
calls, or gets as far as the enumeration of the VBDs of the volume. -/
theorem ControllerPublishVolume_stops_or_enumerates (c : XoBackend σ)
    (req : ControllerPublishVolumeRequest) (s : σ) :
    ((∃ st, (ControllerPublishVolume c req (World.init s)).1 = Except.error st) ∧
      (ControllerPublishVolume c req (World.init s)).2.trace <+: lookupCalls c req) ∨
    ∃ vdi vbds s3, PublishEnumerates c req s vdi vbds s3 := by
  by_cases hn : req.NodeId = ""
  · left; simp [ControllerPublishVolume, hn, World.init]
  have hn2 : (req.NodeId == "") = false := by simpa using hn
  by_cases hc : isValidCapability req.VolumeCapability = true
  swap
  · left; simp [ControllerPublishVolume, hn2, hc, World.init]
  by_cases hv : req.VolumeId = ""
  · left; simp [ControllerPublishVolume, hn2, hc, hv, World.init]
  have hv2 : (req.VolumeId == "") = false := by simpa using hv
  cases h1 : c.GetVDI req.VolumeId s with
  | mk r1 s1 =>
    cases r1 with
    | error e =>
      left
      simp [ControllerPublishVolume, hn2, hc, hv2, GetVDI, World.call, World.init, h1,
        lookupCalls, List.prefix_cons_inj]
    | ok vdi =>
      cases h2 : c.VMGetByID (c.FromStringOrNil req.NodeId) s1 with
      | mk r2 s2 =>
        cases r2 with
        | error e =>
          left
          simp [ControllerPublishVolume, hn2, hc, hv2, GetVDI, VMGetByID, World.call,
            World.init, h1, h2, lookupCalls, List.prefix_cons_inj]
        | ok nodeVM =>
          by_cases hp : nodeVM.PoolID = c.FromStringOrNil vdi.PoolId
          swap
          · left
            simp [ControllerPublishVolume, hn2, hc, hv2, GetVDI, VMGetByID, World.call,
              World.init, h1, h2, hp, lookupCalls, List.prefix_cons_inj]
          cases h3 : c.GetAllVBDs s2 with
          | mk r3 s3 =>
            cases r3 with
            | error e =>
              left
              simp [ControllerPublishVolume, hn2, hc, hv2, GetVDI, VMGetByID,
                IsVDIUsedAnywhere, World.call, World.init, h1, h2, hp, h3, lookupCalls]
            | ok all =>
              right
              exact ⟨vdi, _, s3, hn, hc, hv, s1, s2, nodeVM, all, h1, h2, hp, h3, rfl⟩

/-- The VBD that the scan leaves in `vbdToAttach` is one of the scanned VBDs and
belongs to the node, unless it is the one the scan started with. -/
theorem scanVBDs_some_mem (vm : String) (vbds : List VBD) (acc : Option VBD) (v : VBD)
    (h : scanVBDs vm vbds acc = Except.ok (some v)) :
    (v ∈ vbds ∧ v.VmId = vm) ∨ acc = some v := by
  induction vbds generalizing acc with
  | nil =>
    right
    simpa [scanVBDs] using h
  | cons x rest ih =>
    unfold scanVBDs at h
    by_cases hx : (x.Attached && x.VmId != vm) = true
    · rw [if_pos hx] at h; cases h
    rw [if_neg hx] at h
    by_cases hy : (x.VmId == vm) = true
    · rw [if_pos hy] at h
      rcases ih _ h with ⟨hm, hvm⟩ | hacc
      · exact Or.inl ⟨List.mem_cons_of_mem _ hm, hvm⟩
      · simp only [Option.some.injEq] at hacc
        subst hacc
        exact Or.inl ⟨List.mem_cons_self _ _, by simpa using hy⟩
    · rw [if_neg hy] at h
      rcases ih _ h with ⟨hm, hvm⟩ | hacc
      · exact Or.inl ⟨List.mem_cons_of_mem _ hm, hvm⟩
      · exact Or.inr hacc

/-- What `ControllerPublishVolume` does after the enumeration: nothing (the volume is
connected elsewhere, or already connected to the node), or one connect of the
unconnected VBD that the scan picked, or one add-and-attach followed by the queries
of the poller when the scan picked none. -/
theorem publishFromVBDs_shape (c : XoBackend σ) (vdi : VDI) (vm : String) (vbds : List VBD)
    (w : World σ) :
    (publishFromVBDs c vdi vm vbds w).2 = w ∨
    (∃ v, scanVBDs vm vbds none = Except.ok (some v) ∧ v.Attached = false ∧
      (publishFromVBDs c vdi vm vbds w).2.trace = w.trace ++ [Call.ConnectDisk v]) ∨
    (scanVBDs vm vbds none = Except.ok none ∧
      ∃ k, (publishFromVBDs c vdi vm vbds w).2.trace
        = w.trace ++ Call.AttachDisk vdi.VDIId vm :: List.replicate k Call.GetAllVBDs) := by
  have hattach : ∃ k, (publishByAttach c vdi vm w).2.trace
      = w.trace ++ Call.AttachDisk vdi.VDIId vm :: List.replicate k Call.GetAllVBDs := by
    rw [publishByAttach_snd]
    exact AttachVDIToVM_trace c vdi vm w
  by_cases hl : vbds.length > 0
  swap
  · right; right
    have hnil : vbds = [] := List.length_eq_zero.mp (by omega)
    subst hnil
    refine ⟨rfl, ?_⟩
    simpa [publishFromVBDs] using hattach
  cases hs : scanVBDs vm vbds none with
  | error b => left; simp [publishFromVBDs, hl, hs]
  | ok r =>
    cases r with
    | none =>
      right; right
      refine ⟨rfl, ?_⟩
      simpa [publishFromVBDs, hl, hs] using hattach
    | some v =>
      cases ha : v.Attached with
      | true => left; simp [publishFromVBDs, hl, hs, ha]
      | false =>
        right; left
        refine ⟨v, rfl, ha, ?_⟩
        cases hcd : c.ConnectDisk v w.st with
        | mk r4 s4 =>
          cases r4 <;> simp [publishFromVBDs, hl, hs, ha, ConnectVBDToVM, World.call, hcd]

end PublishShape

section ConnectTheorems
variable {σ : Type}

/-- C25. Whenever the call trace of `ControllerPublishVolume` holds a connect, the run
got as far as the enumeration, and the VBD that is connected is one of the enumerated
VBDs of the volume, so it references the volume that was looked up; its VM id is the
node id of the request; and it is not connected yet. This holds for every enumerated
list, whatever the order of its elements. -/
theorem ControllerPublishVolume_connects_own_attachment (c : XoBackend σ)
    (req : ControllerPublishVolumeRequest) (s : σ) (vbd : VBD)
    (h : Call.ConnectDisk vbd ∈ (ControllerPublishVolume c req (World.init s)).2.trace) :
    ∃ vdi vbds s3, PublishEnumerates c req s vdi vbds s3 ∧
      vbd ∈ vbds ∧ vbd.VmId = req.NodeId ∧ vbd.VDI = vdi.VDIId ∧ vbd.Attached = false ∧
      (ControllerPublishVolume c req (World.init s)).2.trace
        = lookupCalls c req ++ [Call.ConnectDisk vbd] := by
  rcases ControllerPublishVolume_stops_or_enumerates c req s with ⟨_, hpre⟩ | ⟨vdi, vbds, s3, hen⟩
  · have := hpre.subset h
    simp [lookupCalls] at this
  · refine ⟨vdi, vbds, s3, hen, ?_⟩
    rw [ControllerPublishVolume_of_enumerates c req s s3 vdi vbds hen] at h ⊢
    have hfilter : ∀ v ∈ vbds, v.VDI = vdi.VDIId := by
      obtain ⟨_, _, _, _, _, _, all, _, _, _, _, hv⟩ := hen
      intro v hm
      rw [hv, List.mem_filter] at hm
      simpa using hm.2
    rcases publishFromVBDs_shape c vdi req.NodeId vbds ⟨s3, lookupCalls c req⟩ with
      h0 | ⟨v, hscan, hatt, htr⟩ | ⟨_, k, htr⟩
    · rw [h0] at h
      simp [lookupCalls] at h
    · rw [htr] at h ⊢
      have hv : vbd = v := by simpa [lookupCalls] using h
      subst hv
      rcases scanVBDs_some_mem req.NodeId vbds none vbd hscan with ⟨hm, hvm⟩ | hacc
      · exact ⟨hm, hvm, hfilter vbd hm, hatt, rfl⟩
      · cases hacc
    · rw [htr] at h
      simp [lookupCalls, List.mem_replicate] at h

/-- Witness of C25: an unconnected attachment of another node is listed after the
unconnected attachment of the node; the connect is issued for the node's own. -/
theorem ControllerPublishVolume_connects_own_attachment_witness :
    (ControllerPublishVolume exampleBackend (examplePublish "N1")
        (World.init (exampleHypervisor [unconnectedVBD, otherNodeVBD]))).2.trace
      = [Call.GetVDI "V1", Call.VMGetByID (exampleParse "N1"), Call.GetAllVBDs,
         Call.ConnectDisk unconnectedVBD] ∧
    ∃ vdi vbds s3,
      PublishEnumerates exampleBackend (examplePublish "N1")
        (exampleHypervisor [unconnectedVBD, otherNodeVBD]) vdi vbds s3 ∧
      unconnectedVBD ∈ vbds ∧ unconnectedVBD.VmId = (examplePublish "N1").NodeId ∧
      unconnectedVBD.VDI = vdi.VDIId ∧ unconnectedVBD.Attached = false ∧
      (ControllerPublishVolume exampleBackend (examplePublish "N1")
        (World.init (exampleHypervisor [unconnectedVBD, otherNodeVBD]))).2.trace
        = lookupCalls exampleBackend (examplePublish "N1") ++ [Call.ConnectDisk unconnectedVBD] :=
  ⟨rfl, ControllerPublishVolume_connects_own_attachment exampleBackend (examplePublish "N1")
    (exampleHypervisor [unconnectedVBD, otherNodeVBD]) unconnectedVBD
    ((show (ControllerPublishVolume exampleBackend (examplePublish "N1")
        (World.init (exampleHypervisor [unconnectedVBD, otherNodeVBD]))).2.trace
      = [Call.GetVDI "V1", Call.VMGetByID (exampleParse "N1"), Call.GetAllVBDs,
         Call.ConnectDisk unconnectedVBD] from rfl) ▸ by simp)⟩

/-- On the new-attachment path the publish context carries a device name: the poller
hands back only a VBD that has one. -/
theorem publishByAttach_device (c : XoBackend σ) (vdi : VDI) (vm : String) (w : World σ)
    (ctx : GoMap) (h : (publishByAttach c vdi vm w).1 = Except.ok ctx) :
    ctx.get "device" ≠ "" := by
  unfold publishByAttach at h
  cases ha : AttachVDIToVM c vdi vm w with
  | mk r w1 =>
    rw [ha] at h
    cases r with
    | error e => cases h
    | ok vbd =>
      simp only [Except.ok.injEq] at h
      subst h
      have hok : (AttachVDIToVM c vdi vm w).1 = Except.ok vbd := by rw [ha]
      obtain ⟨s4, _, hw⟩ := (AttachVDIToVM_ok_iff c vdi vm w vbd).mp hok
      have := (waitLoop_ok_ready c vdi vm _ _ vbd hw).2
      simpa [publishContextFromVBD, GoMap.get] using this

/-- C26, evaluated on the code. On the connect path `ConnectVBDToVM` hands back the
VBD as it was enumerated, before the connect: for an unconnected attachment with no
device name yet, `ControllerPublishVolume` succeeds with a publish context whose
`device` entry is empty, and `NodeStageVolume` given that context answers
InvalidArgument, device is not set. The same context comes back on the
already-connected path when the attachment is listed connected without a device
name. -/
theorem ControllerPublishVolume_context_without_device :
    (ControllerPublishVolume exampleBackend (examplePublish "N1")
        (World.init (exampleHypervisor [unconnectedVBD]))).1
      = Except.ok [("device", ""), ("vbd", "vbd-1")] ∧
    (ControllerPublishVolume exampleBackend (examplePublish "N1")
        (World.init (exampleHypervisor [unconnectedVBD]))).2.trace
      = [Call.GetVDI "V1", Call.VMGetByID (exampleParse "N1"), Call.GetAllVBDs,
         Call.ConnectDisk unconnectedVBD] ∧
    NodeStageVolume mountTableMounter
        ⟨"V1", [("device", ""), ("vbd", "vbd-1")], "/stage/v1", some exampleCapability⟩
        (World.init nothingMounted)
      = (Except.error ⟨Code.InvalidArgument, "device is not set"⟩, World.init nothingMounted) ∧
    (ControllerPublishVolume exampleBackend (examplePublish "N1")
        (World.init (exampleHypervisor [connectedNoDeviceVBD]))).1
      = Except.ok [("device", ""), ("vbd", "vbd-1")] ∧
    (ControllerPublishVolume exampleBackend (examplePublish "N1")
        (World.init (exampleHypervisor [connectedNoDeviceVBD]))).2.trace
      = [Call.GetVDI "V1", Call.VMGetByID (exampleParse "N1"), Call.GetAllVBDs] :=
  ⟨rfl, rfl, rfl, rfl, rfl⟩

end ConnectTheorems

section TerminalFailures
variable {σ : Type}

/-- When the staging path or the volume-context entry `diskMount` is not empty, it is
the source path that `NodePublishVolume` resolves. -/
theorem sourcePath_of_nonempty (st : String) (attrib : GoMap)
    (h : (if st = "" then attrib.get "diskMount" else st) ≠ "") :
    (if st = "" then (if attrib.exists "diskMount" = true then attrib.get "diskMount" else st)
      else st)
      = (if st = "" then attrib.get "diskMount" else st) := by
  by_cases hst : st = ""
  · subst hst
    simp only [if_true] at h ⊢
    have hex : attrib.exists "diskMount" = true := by
      cases hl : List.lookup "diskMount" attrib with
      | none => simp [GoMap.get, hl] at h
      | some v => simp [GoMap.exists, hl]
    rw [if_pos hex]
  · simp [hst]

/-- The calls of the first three hypervisor operations of a publish are distinct. -/
theorem lookupCalls_count (c : XoBackend σ) (req : ControllerPublishVolumeRequest)
    (extra : Call) (hextra : extra.isHypervisorMutation = true) (call : Call) :
    (lookupCalls c req ++ [extra]).count call ≤ 1 := by
  apply List.nodup_iff_count_le_one.mp
  cases extra <;> simp [Call.isHypervisorMutation, Call.isConnect, Call.isDisconnect,
    Call.isAttach] at hextra <;> simp [lookupCalls]

/-- C22. Collaborator failures are terminal. For a valid `ControllerPublishVolume`
request, a failure of the volume lookup, of the node lookup, of the enumeration of
the attachments, of the connect, or of the add-and-attach (an error or a false result
of `vm.attachDisk`, or the timeout of the wait for completion) makes the RPC answer
Internal, and the failing operation is the last call of the run. The calls of a run
are a prefix of the three lookups, or the three lookups and one connect, or the three
lookups, one add-and-attach and the queries of the poller: no call other than the
listing occurs twice, and the listing recurs only as a query of the poller. Likewise a
failing `MkdirAll`, `IsMountPoint`, `GetDeviceNameFromMount`, `Mount`,
`FormatAndMount` or `Unmount` makes the node-level RPC that reached it answer
Internal, with the failing call as its last call. -/
theorem collaborator_failures_are_terminal {τ : Type} (c : XoBackend σ)
    (req : ControllerPublishVolumeRequest) (s : σ) (hn : req.NodeId ≠ "")
    (hc : isValidCapability req.VolumeCapability = true) (hv : req.VolumeId ≠ "")
    (m : Mounter τ) (wm : World τ) :
    (∀ err s1, c.GetVDI req.VolumeId s = (Except.error err, s1) →
      ControllerPublishVolume c req (World.init s)
        = (Except.error ⟨Code.Internal, "failed to get VDI: " ++ err⟩,
           ⟨s1, [Call.GetVDI req.VolumeId]⟩)) ∧
    (∀ vdi s1 err s2, c.GetVDI req.VolumeId s = (Except.ok vdi, s1) →
      c.VMGetByID (c.FromStringOrNil req.NodeId) s1 = (Except.error err, s2) →
      ControllerPublishVolume c req (World.init s)
        = (Except.error ⟨Code.Internal, "failed to get VM by ID " ++ req.NodeId ++ ": " ++ err⟩,
           ⟨s2, [Call.GetVDI req.VolumeId, Call.VMGetByID (c.FromStringOrNil req.NodeId)]⟩)) ∧
    (∀ vdi s1 nodeVM s2 err s3, c.GetVDI req.VolumeId s = (Except.ok vdi, s1) →
      c.VMGetByID (c.FromStringOrNil req.NodeId) s1 = (Except.ok nodeVM, s2) →
      nodeVM.PoolID = c.FromStringOrNil vdi.PoolId →
      c.GetAllVBDs s2 = (Except.error err, s3) →
      ControllerPublishVolume c req (World.init s)
        = (Except.error ⟨Code.Internal, "failed to check if VDI is already attached: " ++ err⟩,
           ⟨s3, lookupCalls c req⟩)) ∧
    (∀ vdi vbds s3, PublishEnumerates c req s vdi vbds s3 →
      (∀ vbd err s4, scanVBDs req.NodeId vbds none = Except.ok (some vbd) →
        vbd.Attached = false → c.ConnectDisk vbd s3 = (some err, s4) →
        ControllerPublishVolume c req (World.init s)
          = (Except.error ⟨Code.Internal, "Failed to connect VBD to VM: " ++ err⟩,
             ⟨s4, lookupCalls c req ++ [Call.ConnectDisk vbd]⟩)) ∧
      (scanVBDs req.NodeId vbds none = Except.ok none →
        (∀ err s4, c.AttachDisk vdi.VDIId req.NodeId s3 = (Except.error err, s4) →
          ControllerPublishVolume c req (World.init s)
            = (Except.error ⟨Code.Internal, "Failed to attach VDI to VM: " ++ err⟩,
               ⟨s4, lookupCalls c req ++ [Call.AttachDisk vdi.VDIId req.NodeId]⟩)) ∧
        (∀ s4, c.AttachDisk vdi.VDIId req.NodeId s3 = (Except.ok false, s4) →
          ControllerPublishVolume c req (World.init s)
            = (Except.error ⟨Code.Internal, "Failed to attach VDI to VM: "
                ++ ("failed to attach VDI " ++ vdi.VDIId ++ " to VM " ++ req.NodeId
                  ++ ": unknown error")⟩,
               ⟨s4, lookupCalls c req ++ [Call.AttachDisk vdi.VDIId req.NodeId]⟩)) ∧
        (∀ s4 err, c.AttachDisk vdi.VDIId req.NodeId s3 = (Except.ok true, s4) →
          (WaitForVDIToBeFullyAttached c vdi req.NodeId
            ⟨s4, lookupCalls c req ++ [Call.AttachDisk vdi.VDIId req.NodeId]⟩).1
            = Except.error err →
          (ControllerPublishVolume c req (World.init s)).1
            = Except.error ⟨Code.Internal, "Failed to attach VDI to VM: " ++ err⟩ ∧
          (ControllerPublishVolume c req (World.init s)).2.trace
            = lookupCalls c req ++ Call.AttachDisk vdi.VDIId req.NodeId
                :: List.replicate (min c.pollTicks maxPollTicks) Call.GetAllVBDs))) ∧
    ((ControllerPublishVolume c req (World.init s)).2.trace <+: lookupCalls c req ∨
      (∃ vbd, (ControllerPublishVolume c req (World.init s)).2.trace
        = lookupCalls c req ++ [Call.ConnectDisk vbd]) ∨
      (∃ (vdi : VDI) (k : Nat), (ControllerPublishVolume c req (World.init s)).2.trace
        = lookupCalls c req ++ Call.AttachDisk vdi.VDIId req.NodeId
            :: List.replicate k Call.GetAllVBDs)) ∧
    (∀ call, call ≠ Call.GetAllVBDs →
      (ControllerPublishVolume c req (World.init s)).2.trace.count call ≤ 1) ∧
    (∀ (rq : NodeStageVolumeRequest) volCap mount, rq.VolumeId ≠ "" →
      rq.StagingTargetPath ≠ "" → rq.VolumeCapability = some volCap →
      volCap.GetMount = some mount → rq.PublishContext.get "device" ≠ "" →
      (∀ err s1, m.GetDeviceNameFromMount rq.StagingTargetPath wm.st = (Except.error err, s1) →
        NodeStageVolume m rq wm
          = (Except.error ⟨Code.Internal,
              "failed to check if device is already mounted: " ++ err⟩,
             ⟨s1, wm.trace ++ [Call.GetDeviceNameFromMount rq.StagingTargetPath]⟩)) ∧
      (∀ cur n s1 err s2,
        m.GetDeviceNameFromMount rq.StagingTargetPath wm.st = (Except.ok (cur, n), s1) →
        cur ≠ rq.PublishContext.get "device" →
        m.FormatAndMount ("/dev/" ++ rq.PublishContext.get "device") rq.StagingTargetPath
          (if mount.1 = "" then "ext4" else mount.1) [] s1 = (some err, s2) →
        NodeStageVolume m rq wm
          = (Except.error ⟨Code.Internal, "failed to ensure filesystem: " ++ err⟩,
             ⟨s2, wm.trace ++ [Call.GetDeviceNameFromMount rq.StagingTargetPath,
                Call.FormatAndMount ("/dev/" ++ rq.PublishContext.get "device")
                  rq.StagingTargetPath (if mount.1 = "" then "ext4" else mount.1) []]⟩))) ∧
    (∀ rq : NodeUnstageVolumeRequest, rq.VolumeId ≠ "" → rq.StagingTargetPath ≠ "" →
      (∀ err s1, m.GetDeviceNameFromMount rq.StagingTargetPath wm.st = (Except.error err, s1) →
        NodeUnstageVolume m rq wm
          = (Except.error ⟨Code.Internal,
              "failed to check if device is already mounted: " ++ err⟩,
             ⟨s1, wm.trace ++ [Call.GetDeviceNameFromMount rq.StagingTargetPath]⟩)) ∧
      (∀ cur s1 err s2,
        m.GetDeviceNameFromMount rq.StagingTargetPath wm.st = (Except.ok (cur, 1), s1) →
        m.Unmount rq.StagingTargetPath s1 = (some err, s2) →
        NodeUnstageVolume m rq wm
          = (Except.error ⟨Code.Internal,
              "failed to unstage device at " ++ rq.StagingTargetPath ++ ": " ++ err⟩,
             ⟨s2, wm.trace ++ [Call.GetDeviceNameFromMount rq.StagingTargetPath,
                Call.Unmount rq.StagingTargetPath]⟩))) ∧
    (∀ (rq : NodePublishVolumeRequest) volCap cfs flags, rq.VolumeCapability = some volCap →
      isValidVolumeCapabilities [some volCap] = true → volCap.GetMount = some (cfs, flags) →
      rq.VolumeId ≠ "" → rq.TargetPath ≠ "" →
      (if rq.StagingTargetPath = "" then rq.VolumeContext.get "diskMount"
        else rq.StagingTargetPath) ≠ "" →
      (∀ err s1, m.MkdirAll rq.TargetPath wm.st = (some err, s1) →
        NodePublishVolume m rq wm
          = (Except.error ⟨Code.Internal, "failed to create target path: " ++ err⟩,
             ⟨s1, wm.trace ++ [Call.MkdirAll rq.TargetPath]⟩)) ∧
      (∀ s1 err s2, m.MkdirAll rq.TargetPath wm.st = (none, s1) →
        m.IsMountPoint rq.TargetPath s1 = (Except.error err, s2) →
        NodePublishVolume m rq wm
          = (Except.error ⟨Code.Internal, "check target path: " ++ err⟩,
             ⟨s2, wm.trace ++ [Call.MkdirAll rq.TargetPath, Call.IsMountPoint rq.TargetPath]⟩)) ∧
      (∀ s1 s2 err s3, m.MkdirAll rq.TargetPath wm.st = (none, s1) →
        m.IsMountPoint rq.TargetPath s1 = (Except.ok true, s2) →
        m.Mount
          (if rq.StagingTargetPath = "" then rq.VolumeContext.get "diskMount"
            else rq.StagingTargetPath)
          rq.TargetPath (if cfs = "" then "ext4" else cfs)
          (if rq.Readonly = true then ["ro", "bind"] else ["bind"]) s2 = (some err, s3) →
        NodePublishVolume m rq wm
          = (Except.error ⟨Code.Internal, "failed to mount device: "
                ++ (if rq.StagingTargetPath = "" then rq.VolumeContext.get "diskMount"
                      else rq.StagingTargetPath)
                ++ " at " ++ rq.TargetPath ++ ": " ++ err⟩,
             ⟨s3, wm.trace ++ [Call.MkdirAll rq.TargetPath, Call.IsMountPoint rq.TargetPath,
                Call.Mount
                  (if rq.StagingTargetPath = "" then rq.VolumeContext.get "diskMount"
                    else rq.StagingTargetPath)
                  rq.TargetPath (if cfs = "" then "ext4" else cfs)
                  (if rq.Readonly = true then ["ro", "bind"] else ["bind"])]⟩))) ∧
    (∀ rq : NodeUnpublishVolumeRequest, rq.VolumeId ≠ "" → rq.TargetPath ≠ "" →
      ∀ err s1, m.Unmount rq.TargetPath wm.st = (some err, s1) →
        NodeUnpublishVolume m rq wm
          = (Except.error ⟨Code.Internal, "failed to unmount target path: " ++ err⟩,
             ⟨s1, wm.trace ++ [Call.Unmount rq.TargetPath]⟩)) := by
  have hn2 : (req.NodeId == "") = false := by simpa using hn
  have hv2 : (req.VolumeId == "") = false := by simpa using hv
  have hshape : (ControllerPublishVolume c req (World.init s)).2.trace <+: lookupCalls c req ∨
      (∃ vbd, (ControllerPublishVolume c req (World.init s)).2.trace
        = lookupCalls c req ++ [Call.ConnectDisk vbd]) ∨
      (∃ (vdi : VDI) (k : Nat), (ControllerPublishVolume c req (World.init s)).2.trace
        = lookupCalls c req ++ Call.AttachDisk vdi.VDIId req.NodeId
            :: List.replicate k Call.GetAllVBDs) := by
    rcases ControllerPublishVolume_stops_or_enumerates c req s with
      ⟨_, hpre⟩ | ⟨vdi, vbds, s3, hen⟩
    · exact Or.inl hpre
    · rw [ControllerPublishVolume_of_enumerates c req s s3 vdi vbds hen]
      rcases publishFromVBDs_shape c vdi req.NodeId vbds ⟨s3, lookupCalls c req⟩ with
        h0 | ⟨v, _, _, htr⟩ | ⟨_, k, htr⟩
      · left; rw [h0]
      · exact Or.inr (Or.inl ⟨v, htr⟩)
      · exact Or.inr (Or.inr ⟨vdi, k, htr⟩)
  refine ⟨?_, ?_, ?_, ?_, ?_, ?_, ?_, ?_, ?_, ?_⟩
  · intro err s1 h1
    simp [ControllerPublishVolume, hn2, hc, hv2, GetVDI, World.call, World.init, h1]
  · intro vdi s1 err s2 h1 h2
    simp [ControllerPublishVolume, hn2, hc, hv2, GetVDI, VMGetByID, World.call, World.init,
      h1, h2]
  · intro vdi s1 nodeVM s2 err s3 h1 h2 hp h3
    simp [ControllerPublishVolume, hn2, hc, hv2, GetVDI, VMGetByID, IsVDIUsedAnywhere,
      World.call, World.init, h1, h2, hp, h3, lookupCalls]
  · intro vdi vbds s3 hen
    rw [ControllerPublishVolume_of_enumerates c req s s3 vdi vbds hen]
    have hbranch : scanVBDs req.NodeId vbds none = Except.ok none →
        publishFromVBDs c vdi req.NodeId vbds ⟨s3, lookupCalls c req⟩
          = publishByAttach c vdi req.NodeId ⟨s3, lookupCalls c req⟩ := by
      intro hs
      by_cases hl : vbds.length > 0
      · simp [publishFromVBDs, hl, hs]
      · simp [publishFromVBDs, hl]
    refine ⟨?_, fun hs => ⟨?_, ?_, ?_⟩⟩
    · intro vbd err s4 hs ha hcd
      have hl : vbds.length > 0 := by
        cases vbds with
        | nil => simp [scanVBDs] at hs
        | cons x rest => simp
      simp [publishFromVBDs, hl, hs, ha, ConnectVBDToVM, World.call, hcd]
    · intro err s4 ha
      rw [hbranch hs]
      simp [publishByAttach, AttachVDIToVM, World.call, ha]
    · intro s4 ha
      rw [hbranch hs]
      simp [publishByAttach, AttachVDIToVM, World.call, ha]
    · intro s4 err ha hw
      rw [hbranch hs]
      have hsnd := AttachVDIToVM_snd c vdi req.NodeId ⟨s3, lookupCalls c req⟩ s4 ha
      obtain ⟨k, _, htr, _, herr⟩ := waitLoop_outcome c vdi req.NodeId
        (min c.pollTicks maxPollTicks)
        ⟨s4, lookupCalls c req ++ [Call.AttachDisk vdi.VDIId req.NodeId]⟩
      have hk := (herr err hw).2
      subst hk
      constructor
      · unfold WaitForVDIToBeFullyAttached at hw
        cases hwl : waitLoop c vdi req.NodeId (min c.pollTicks maxPollTicks)
            ⟨s4, lookupCalls c req ++ [Call.AttachDisk vdi.VDIId req.NodeId]⟩ with
        | mk r2 w2 =>
          rw [hwl] at hw
          simp only at hw
          subst hw
          simp [publishByAttach, AttachVDIToVM, World.call, ha, WaitForVDIToBeFullyAttached,
            hwl]
      · rw [publishByAttach_snd, hsnd]
        unfold WaitForVDIToBeFullyAttached
        rw [htr]
        simp
  · exact hshape
  · intro call hcall
    rcases hshape with hpre | ⟨v, htr⟩ | ⟨vdi, k, htr⟩
    · exact le_trans (hpre.sublist.count_le call)
        (List.nodup_iff_count_le_one.mp (by simp [lookupCalls]) call)
    · rw [htr]
      exact lookupCalls_count c req (Call.ConnectDisk v) rfl call
    · have hsplit : lookupCalls c req ++ Call.AttachDisk vdi.VDIId req.NodeId
            :: List.replicate k Call.GetAllVBDs
          = (lookupCalls c req ++ [Call.AttachDisk vdi.VDIId req.NodeId])
            ++ List.replicate k Call.GetAllVBDs := by simp
      have hzero : (List.replicate k Call.GetAllVBDs).count call = 0 :=
        List.count_eq_zero.mpr (fun hm => hcall (List.eq_of_mem_replicate hm))
      rw [htr, hsplit, List.count_append, hzero, Nat.add_zero]
      exact lookupCalls_count c req (Call.AttachDisk vdi.VDIId req.NodeId) rfl call
  · intro rq volCap mount h1 h2 hcap hgm hd
    have h1l : ¬ rq.VolumeId.length = 0 := fun h => h1 ((length_eq_zero_iff_empty _).mp h)
    have h2l : ¬ rq.StagingTargetPath.length = 0 :=
      fun h => h2 ((length_eq_zero_iff_empty _).mp h)
    refine ⟨?_, ?_⟩
    · intro err s1 hq
      simp [NodeStageVolume, h1l, h2l, hcap, hgm, hd, World.call, hq]
    · intro cur n s1 err s2 hq hne hf
      simp [NodeStageVolume, h1l, h2l, hcap, hgm, hd, World.call, hq, hne, DefaultFsType, hf]
  · intro rq h1 h2
    have h1l : ¬ rq.VolumeId.length = 0 := fun h => h1 ((length_eq_zero_iff_empty _).mp h)
    have h2l : ¬ rq.StagingTargetPath.length = 0 :=
      fun h => h2 ((length_eq_zero_iff_empty _).mp h)
    refine ⟨?_, ?_⟩
    · intro err s1 hq
      simp [NodeUnstageVolume, h1l, h2l, World.call, hq]
    · intro cur s1 err s2 hq hu
      simp [NodeUnstageVolume, h1l, h2l, World.call, hq, hu]
  · intro rq volCap cfs flags hcap hvc hgm h1 h2 hsrc
    have h1l : ¬ rq.VolumeId.length = 0 := fun h => h1 ((length_eq_zero_iff_empty _).mp h)
    have h2l : ¬ rq.TargetPath.length = 0 := fun h => h2 ((length_eq_zero_iff_empty _).mp h)
    have hres := sourcePath_of_nonempty rq.StagingTargetPath rq.VolumeContext hsrc
    have hsp : ¬ (if rq.StagingTargetPath = "" then
        (if rq.VolumeContext.exists "diskMount" = true then rq.VolumeContext.get "diskMount"
          else rq.StagingTargetPath) else rq.StagingTargetPath) = "" := by
      rw [hres]; exact hsrc
    refine ⟨?_, ?_, ?_⟩
    · intro err s1 hmk
      simp only [NodePublishVolume, hcap]
      simp [hvc, h1l, h2l, hsp, h2, hgm, World.call, hmk]
    · intro s1 err s2 hmk him
      simp only [NodePublishVolume, hcap]
      simp [hvc, h1l, h2l, hsp, h2, hgm, World.call, hmk, him]
    · intro s1 s2 err s3 hmk him hmt
      simp only [NodePublishVolume, hcap]
      cases hro : rq.Readonly <;>
        simp [hvc, h1l, h2l, hsrc, h2, hgm, World.call, hmk, him, hres, hro, DefaultFsType]
          at hmt ⊢ <;> simp [hmt]
  · intro rq h1 h2 err s1 hu
    have h1l : ¬ rq.VolumeId.length = 0 := fun h => h1 ((length_eq_zero_iff_empty _).mp h)
    have h2l : ¬ rq.TargetPath.length = 0 := fun h => h2 ((length_eq_zero_iff_empty _).mp h)
    simp [NodeUnpublishVolume, h1l, h2l, World.call, hu]

/-- Witness of C22: the lookup of an unknown volume fails; an add-and-attach whose
attachment never shows up runs into the timeout after 120 queries; an unmount
fails. -/
theorem collaborator_failures_are_terminal_witness :
    ControllerPublishVolume exampleBackend ⟨"V9", "N1", some exampleCapability⟩
        (World.init (exampleHypervisor []))
      = (Except.error ⟨Code.Internal, "failed to get VDI: " ++ "no such VDI"⟩,
         ⟨exampleHypervisor [], [Call.GetVDI "V9"]⟩) ∧
    ((ControllerPublishVolume stuckBackend (examplePublish "N1")
        (World.init (exampleHypervisor []))).1
      = Except.error ⟨Code.Internal, "Failed to attach VDI to VM: "
          ++ "timed out waiting for VDI V1 to be attached to VM N1"⟩ ∧
      (ControllerPublishVolume stuckBackend (examplePublish "N1")
        (World.init (exampleHypervisor []))).2.trace
      = lookupCalls stuckBackend (examplePublish "N1") ++ Call.AttachDisk "V1" "N1"
          :: List.replicate (min stuckBackend.pollTicks maxPollTicks) Call.GetAllVBDs) ∧
    NodeUnpublishVolume busyMounter ⟨"V1", "/pods/p1/v1"⟩ (World.init stagedAndPublished)
      = (Except.error ⟨Code.Internal, "failed to unmount target path: " ++ "target is busy"⟩,
         ⟨stagedAndPublished, (World.init stagedAndPublished).trace
            ++ [Call.Unmount "/pods/p1/v1"]⟩) :=
  ⟨(collaborator_failures_are_terminal exampleBackend ⟨"V9", "N1", some exampleCapability⟩
      (exampleHypervisor []) (by decide) rfl (by decide) busyMounter
      (World.init stagedAndPublished)).1 "no such VDI" (exampleHypervisor []) rfl,
   ((collaborator_failures_are_terminal stuckBackend (examplePublish "N1")
      (exampleHypervisor []) (by decide) rfl (by decide) busyMounter
      (World.init stagedAndPublished)).2.2.2.1 ⟨"V1", "P1"⟩ [] (exampleHypervisor [])
      ⟨by decide, rfl, by decide, exampleHypervisor [], exampleHypervisor [],
        ⟨exampleParse "P1"⟩, [], rfl, rfl, rfl, rfl, rfl⟩).2 rfl
      |>.2.2 (exampleHypervisor []) "timed out waiting for VDI V1 to be attached to VM N1"
        rfl rfl,
   (collaborator_failures_are_terminal exampleBackend (examplePublish "N1")
      (exampleHypervisor []) (by decide) rfl (by decide) busyMounter
      (World.init stagedAndPublished)).2.2.2.2.2.2.2.2.2 ⟨"V1", "/pods/p1/v1"⟩
      (by decide) (by decide) "target is busy" stagedAndPublished rfl⟩

end TerminalFailures

section PollerDeadline
variable {σ : Type}

/-- The outcomes of the first ticks are a prefix of the outcomes of more ticks. -/
theorem tickOutcomes_mono (c : XoBackend σ) (vdi : VDI) (vm : String) (n k : Nat)
    (h : n ≤ k) (w : World σ) :
    tickOutcomes c vdi vm n w <+: tickOutcomes c vdi vm k w := by
  induction n generalizing k w with
  | zero => exact List.nil_prefix
  | succ n ih =>
    cases k with
    | zero => omega
    | succ k =>
      unfold tickOutcomes
      exact (List.prefix_cons_inj _).mpr (ih k (by omega) _)

/-- An outcome that ends the wait is a fetched attachment. -/
theorem ok_of_outcomeIsReady (o : Except String VBD) (h : outcomeIsReady o = true) :
    ∃ vbd, o = Except.ok vbd := by
  cases o with
  | error e => cases h
  | ok vbd => exact ⟨vbd, rfl⟩

/-- C11. `WaitForVDIToBeFullyAttached` over the per-tick query outcomes, one query per
tick of the one-second ticker, deadline two minutes. Where every tick that fires
before the deadline is received (the ticks at 1 s to 119 s; the tick at 120 s races
with the timeout), the ticks before the deadline number 119 or 120, and over their
outcomes: the result is the first outcome that is a fetched attachment with connected
= true and a non-empty device name, and the timeout error when there is none; a
query error or a not-yet-ready attachment never ends the wait; every attachment
returned is connected with a non-empty device name; an attachment that is ready at
one of the first 119 ticks is returned, not a timeout; the queries made are those up
to and including the first ready outcome, at most 120; and the timeout is reported
only after every tick before the deadline was used and found not ready. -/
theorem WaitForVDIToBeFullyAttached_contract (c : XoBackend σ) (vdi : VDI) (vm : String)
    (w : World σ)
    (hticks : ticksBefore (specPollDeadlineSeconds * 1000) (specPollIntervalSeconds * 1000)
      ≤ c.pollTicks) :
    119 ≤ min c.pollTicks 120 ∧
    (WaitForVDIToBeFullyAttached c vdi vm w).1
      = pollerContract
          ("timed out waiting for VDI " ++ vdi.VDIId ++ " to be attached to VM " ++ vm)
          (tickOutcomes c vdi vm (min c.pollTicks 120) w) ∧
    (∀ vbd, (WaitForVDIToBeFullyAttached c vdi vm w).1 = Except.ok vbd →
      vbd.Attached = true ∧ vbd.Device ≠ "") ∧
    ((∃ o ∈ tickOutcomes c vdi vm 119 w, outcomeIsReady o = true) →
      ∃ vbd, (WaitForVDIToBeFullyAttached c vdi vm w).1 = Except.ok vbd) ∧
    (WaitForVDIToBeFullyAttached c vdi vm w).2.trace
      = w.trace ++ List.replicate
          (min (min c.pollTicks 120)
            (((tickOutcomes c vdi vm (min c.pollTicks 120) w).takeWhile
              (fun o => !outcomeIsReady o)).length + 1)) Call.GetAllVBDs ∧
    (∀ err, (WaitForVDIToBeFullyAttached c vdi vm w).1 = Except.error err →
      err = "timed out waiting for VDI " ++ vdi.VDIId ++ " to be attached to VM " ++ vm ∧
      (∀ o ∈ tickOutcomes c vdi vm (min c.pollTicks 120) w, outcomeIsReady o = false) ∧
      (WaitForVDIToBeFullyAttached c vdi vm w).2.trace
        = w.trace ++ List.replicate (min c.pollTicks 120) Call.GetAllVBDs) := by
  have h119 : ticksBefore (specPollDeadlineSeconds * 1000) (specPollIntervalSeconds * 1000)
      = 119 := by decide
  rw [h119] at hticks
  have hrun : WaitForVDIToBeFullyAttached c vdi vm w
      = waitLoop c vdi vm (min c.pollTicks 120) w := rfl
  obtain ⟨h1, h2⟩ := waitLoop_contract c vdi vm (min c.pollTicks 120) w
  have hfound : ∀ o ∈ tickOutcomes c vdi vm (min c.pollTicks 120) w,
      outcomeIsReady o = true →
      ∃ vbd, (waitLoop c vdi vm (min c.pollTicks 120) w).1 = Except.ok vbd := by
    intro o ho hready
    rw [h1]
    unfold pollerContract
    cases hf : List.find? outcomeIsReady (tickOutcomes c vdi vm (min c.pollTicks 120) w) with
    | none =>
      have := List.find?_eq_none.mp hf o ho
      exact absurd hready this
    | some o2 => exact ok_of_outcomeIsReady o2 (List.find?_some hf)
  rw [hrun]
  refine ⟨by omega, h1, ?_, ?_, h2, ?_⟩
  · intro vbd hv
    exact waitLoop_ok_ready c vdi vm _ w vbd hv
  · rintro ⟨o, ho, hready⟩
    exact hfound o ((tickOutcomes_mono c vdi vm 119 _ (by omega) w).subset ho) hready
  · intro err herr
    obtain ⟨k, _, htr, _, hk⟩ := waitLoop_outcome c vdi vm (min c.pollTicks 120) w
    obtain ⟨hmsg, hkn⟩ := hk err herr
    subst hkn
    refine ⟨hmsg, ?_, htr⟩
    intro o ho
    cases hr : outcomeIsReady o with
    | false => rfl
    | true =>
      obtain ⟨vbd, hv⟩ := hfound o ho hr
      rw [hv] at herr
      cases herr

/-- Witness of C11: with a ticker that delivers the ticks before the deadline and an
attachment that is listed connected with its device name, the poller hands it back
at the first tick. -/
theorem WaitForVDIToBeFullyAttached_contract_witness :
    ticksBefore (specPollDeadlineSeconds * 1000) (specPollIntervalSeconds * 1000)
      ≤ exampleBackend.pollTicks ∧
    (WaitForVDIToBeFullyAttached exampleBackend ⟨"V1", "P1"⟩ "N1"
        (World.init (exampleHypervisor [⟨"vbd-1", true, "xvdb", "V1", "N1"⟩]))).1
      = Except.ok ⟨"vbd-1", true, "xvdb", "V1", "N1"⟩ ∧
    (WaitForVDIToBeFullyAttached exampleBackend ⟨"V1", "P1"⟩ "N1"
        (World.init (exampleHypervisor [⟨"vbd-1", true, "xvdb", "V1", "N1"⟩]))).2.trace
      = [Call.GetAllVBDs] ∧
    (WaitForVDIToBeFullyAttached exampleBackend ⟨"V1", "P1"⟩ "N1"
        (World.init (exampleHypervisor [⟨"vbd-1", true, "xvdb", "V1", "N1"⟩]))).1
      = pollerContract
          ("timed out waiting for VDI " ++ "V1" ++ " to be attached to VM " ++ "N1")
          (tickOutcomes exampleBackend ⟨"V1", "P1"⟩ "N1" (min exampleBackend.pollTicks 120)
            (World.init (exampleHypervisor [⟨"vbd-1", true, "xvdb", "V1", "N1"⟩]))) :=
  ⟨by decide, rfl, rfl,
   (WaitForVDIToBeFullyAttached_contract exampleBackend ⟨"V1", "P1"⟩ "N1"
      (World.init (exampleHypervisor [⟨"vbd-1", true, "xvdb", "V1", "N1"⟩]))
      (by decide)).2.1⟩

end PollerDeadline

end XenOrchestraCSI
